import Mathlib

/-!
Verification of the GameStash server's order pricing and lifecycle logic.

The development shallowly embeds the JavaScript source:

* money values are rationals (the source uses JS numbers; all the
  arithmetic in the embedded fragments is exact decimal arithmetic);
* JS Math.round and Number.toFixed round half-up toward positive
  infinity on ties (ECMA-262 picks the larger candidate), embedded as
  jsRound;
* mongoose documents are structures, statuses are the literal strings
  the source compares against;
* the product / coupon / wallet collections are passed in and returned
  explicitly, so that partially persisted effects of an aborted request
  are observable;
* a thrown error is an Except.error result; every embedded controller
  returns the persisted state next to the result.
-/

namespace GameStash

/-- JS Math.round: nearest integer, ties toward positive infinity. -/
def jsRound (q : ℚ) : ℤ := ⌊q + 1/2⌋

/-- JS Number(x.toFixed(2)): round to two decimal places. -/
def round2 (q : ℚ) : ℚ := ((jsRound (q * 100) : ℤ) : ℚ) / 100

/-- JS Array.prototype.includes on string arrays. -/
def strIncludes : List String → String → Bool
  | [], _ => false
  | x :: rest, s => if x = s then true else strIncludes rest s

/-- JS statuses.every together with a one- or two-element allowed set:
every element of the list is one of the allowed strings. -/
def allIn : List String → List String → Bool
  | [], _ => true
  | s :: rest, allowed => if strIncludes allowed s then allIn rest allowed else false

/-! ## Offer model (src/models/offer.model.js) and the best-offer engine
(src/utils/bestOfferForProduct.js). -/

/-- An offer document, restricted to the fields the engine reads.
discountType is the string percentage or amount, as in the mongoose enum. -/
structure Offer where
  oid : Nat
  discountType : String
  discountValue : ℚ
  isActive : Bool
deriving DecidableEq, Repr

/-- The absolute discount an offer grants on a given product price
(bestOfferForProduct.js lines 24-29): price * value / 100 for
percentage offers, the raw value for amount offers. -/
def offerDiscount (price : ℚ) (offer : Offer) : ℚ :=
  if offer.discountType = "percentage" then price * offer.discountValue / 100
  else offer.discountValue

/-- The filter on line 11-13 of bestOfferForProduct.js: keep active offers. -/
def activeOffers : List Offer → List Offer
  | [] => []
  | o :: rest => if o.isActive then o :: activeOffers rest else activeOffers rest

/-- The mutable loop state of selectBestOfferForProduct:
bestOffer, bestDiscount and newDiscountedPrice (lines 15-17). -/
structure BestOfferState where
  bestOffer : Option Offer
  bestDiscount : ℚ
  newDiscountedPrice : ℚ
deriving DecidableEq, Repr

/-- The for-loop of selectBestOfferForProduct (lines 19-36): skip
inactive offers, and take an offer exactly when its discount strictly
exceeds the best discount seen so far. -/
def bestOfferLoop (price : ℚ) : List Offer → BestOfferState → BestOfferState
  | [], s => s
  | offer :: rest, s =>
    if offer.isActive then
      let discountValue := offerDiscount price offer
      if s.bestDiscount < discountValue then
        bestOfferLoop price rest ⟨some offer, discountValue, max (price - discountValue) 0⟩
      else
        bestOfferLoop price rest s
    else
      bestOfferLoop price rest s

/-- selectBestOfferForProduct (bestOfferForProduct.js): the persisted
pair of bestOffer and discountedPrice. discountedPrice is
newDiscountedPrice.toFixed(2) when a best offer exists, null otherwise. -/
def selectBestOfferForProduct (price : ℚ) (applicableOffers : List Offer) :
    Option Offer × Option ℚ :=
  let s := bestOfferLoop price (activeOffers applicableOffers) ⟨none, 0, price⟩
  match s.bestOffer with
  | some o => (some o, some (round2 s.newDiscountedPrice))
  | none => (none, none)

/-- The 10 percent brand offer of the pricing scenario. -/
def exBrandOffer : Offer := ⟨1, "percentage", 10, true⟩

/-- The flat 150 product offer of the pricing scenario. -/
def exFlatOffer : Offer := ⟨2, "amount", 150, true⟩

/-! ## Product, order, coupon and wallet documents. -/

/-- A product document, restricted to the fields the order controller
reads and writes. bestOffer is the populated cached best offer
(src/models/product.model.js together with the applicableOffers /
bestOffer fields the offer controller maintains). -/
structure Product where
  pid : Nat
  price : ℚ
  stock : ℤ
  bestOffer : Option Offer
deriving DecidableEq, Repr

/-- Product.findById on the product collection. -/
def findProduct : List Product → Nat → Option Product
  | [], _ => none
  | p :: rest, pid => if p.pid = pid then some p else findProduct rest pid

/-- product.save(): replace the document with the same id. -/
def saveProduct : List Product → Product → List Product
  | [], _ => []
  | q :: rest, p => if q.pid = p.pid then p :: rest else q :: saveProduct rest p

/-- The returnRequest subdocument of an order item
(src/models/order.model.js lines 40-56). -/
structure ReturnRequest where
  requested : Bool
  approved : Bool
  responseSent : Bool
deriving DecidableEq, Repr

/-- An order item snapshot (orderItemSchema in src/models/order.model.js);
status is one of the literal strings of the mongoose enum. -/
structure OrderItem where
  productId : Nat
  quantity : Nat
  price : ℚ
  discount : ℚ
  totalPrice : ℚ
  status : String
  returnRequest : ReturnRequest
deriving DecidableEq, Repr

/-- JS order.orderItems.find(item =&gt; item.product._id.equals(productId)). -/
def findItem : List OrderItem → Nat → Option OrderItem
  | [], _ => none
  | it :: rest, pid => if it.productId = pid then some it else findItem rest pid

/-- Mutating the order item found by JS Array.prototype.find: the first
item with the given product id is replaced by its image under f. -/
def updateFirstItem : List OrderItem → Nat → (OrderItem → OrderItem) → List OrderItem
  | [], _, _ => []
  | it :: rest, pid, f =>
    if it.productId = pid then f it :: rest else it :: updateFirstItem rest pid f

/-- An order document (OrderSchema in src/models/order.model.js),
restricted to the fields the embedded controllers touch. -/
structure Order where
  user : Nat
  orderItems : List OrderItem
  totalAmount : ℚ
  totalDiscount : ℚ
  finalPrice : ℚ
  couponCode : Option String
  couponDiscount : ℚ
  paymentMethod : String
  paymentStatus : String
  orderStatus : String
  deliveryBy : Option ℤ
  refundedAmount : ℚ
deriving DecidableEq, Repr

/-- The pre-save hook of OrderSchema (order.model.js lines 137-195): the
persisted orderStatus is recomputed from the list of item statuses on
every save, by this exact if-else chain. -/
def deriveOrderStatus (statuses : List String) : String :=
  if allIn statuses ["Cancelled"] then "Cancelled"
  else if allIn statuses ["Returned"] then "Returned"
  else if allIn statuses ["Return Rejected"] then "Return Rejected"
  else if strIncludes statuses "Return Requested" then "Return Requested"
  else if allIn statuses ["Delivered", "Cancelled"] then "Delivered"
  else if allIn statuses ["Shipped", "Cancelled"] then "Shipped"
  else if allIn statuses ["Processing", "Cancelled"] then "Processing"
  else if strIncludes statuses "Shipped" && strIncludes statuses "Delivered"
      && !strIncludes statuses "Return Requested" then "Partially Delivered"
  else if strIncludes statuses "Cancelled" && strIncludes statuses "Delivered"
      && !strIncludes statuses "Return Requested" then "Partially Cancelled"
  else if strIncludes statuses "Returned"
      && (strIncludes statuses "Shipped" || strIncludes statuses "Delivered")
      && !strIncludes statuses "Return Requested" then "Partially Returned"
  else if strIncludes statuses "Delivered" && strIncludes statuses "Return Rejected"
      && !strIncludes statuses "Return Requested" then "Delivered"
  else if strIncludes statuses "Shipped" then "Shipped"
  else if strIncludes statuses "Processing" then "Processing"
  else "Processing"

/-- Statuses of the items of an order. -/
def itemStatuses (items : List OrderItem) : List String :=
  items.map (fun it => it.status)

/-- order.save(): mongoose runs the pre-save hook, so the persisted
orderStatus is deriveOrderStatus of the item statuses, whatever the
controller assigned before saving. -/
def saveOrder (o : Order) : Order :=
  { o with orderStatus := deriveOrderStatus (itemStatuses o.orderItems) }

/-- A wallet ledger entry, as pushed by the controllers. -/
structure Txn where
  txnType : String
  amount : ℚ
  txnStatus : String
deriving DecidableEq, Repr

/-- A wallet document. The wallet model file is not part of the sources
here; balance and transactions are exactly the fields every controller
reads and writes, and Wallet.create({ userId, transactions: [] }) yields
balance 0 (the schema default per the spec, wallet balance nonnegative). -/
structure Wallet where
  balance : ℚ
  transactions : List Txn
deriving DecidableEq, Repr

/-- Wallet.findOne followed by Wallet.create when missing. -/
def getWallet (w : Option Wallet) : Wallet := w.getD ⟨0, []⟩

/-! ## cancelOrder (order controller lines 416-565). -/

/-- The outcome of a cancellation request: the thrown error or success,
together with the persisted order, product collection and wallet. -/
structure CancelOutcome where
  result : Except String Unit
  order : Order
  store : List Product
  wallet : Option Wallet
deriving Repr

/-- The item statuses that block per-item cancellation
(cancelOrder lines 446-452). -/
def cancelInvalidStatus : List String :=
  ["Shipped", "Delivered", "Returned", "Return Requested", "Return Rejected"]

/-- The statuses of items that no longer count as remaining
(cancelOrder lines 500-503 and 527-536). -/
def settledStatus : List String := ["Cancelled", "Returned", "Return Rejected"]

/-- JS remainingItems: items whose status is not settled. -/
def remainingItems : List OrderItem → List OrderItem
  | [] => []
  | it :: rest =>
    if strIncludes settledStatus it.status then remainingItems rest
    else it :: remainingItems rest

/-- JS remainingItems.some(item =&gt; item.status === Delivered). -/
def anyDelivered : List OrderItem → Bool
  | [] => false
  | it :: rest => if it.status = "Delivered" then true else anyDelivered rest

/-- Restocking loop of whole-order cancellation (lines 527-536): every
item not already settled has its product restocked and is marked
Cancelled. Returns the updated collection and items. -/
def restockAll : List OrderItem → List Product → List Product × List OrderItem
  | [], store => (store, [])
  | it :: rest, store =>
    if strIncludes settledStatus it.status then
      let (store1, rest1) := restockAll rest store
      (store1, it :: rest1)
    else
      let store0 :=
        match findProduct store it.productId with
        | some p => saveProduct store { p with stock := p.stock + it.quantity }
        | none => store
      let (store1, rest1) := restockAll rest store0
      (store1, { it with status := "Cancelled" } :: rest1)

/-- cancelOrder (order controller lines 416-565). productId present
selects the per-item branch; absent, the whole-order branch. The order
has already been fetched; id-format checks are outside the embedding. -/
def cancelOrder (order : Order) (productId : Option Nat) (store : List Product)
    (wallet : Option Wallet) : CancelOutcome :=
  if order.orderStatus = "Cancelled" then
    ⟨.error "Order is already cancelled.", order, store, wallet⟩
  else
    match productId with
    | some pid =>
      match findItem order.orderItems pid with
      | none => ⟨.error "Product does not exist in this order.", order, store, wallet⟩
      | some orderItem =>
        if strIncludes cancelInvalidStatus orderItem.status then
          ⟨.error "Product cannot be cancelled.", order, store, wallet⟩
        else
          let refundAmount : ℚ :=
            if order.couponCode.isSome then
              let productDiscountShare :=
                orderItem.totalPrice / order.totalAmount * order.couponDiscount
              ((jsRound (orderItem.totalPrice - productDiscountShare) : ℤ) : ℚ)
            else orderItem.totalPrice
          let store1 :=
            match findProduct store orderItem.productId with
            | some p => saveProduct store { p with stock := p.stock + orderItem.quantity }
            | none => store
          let wallet1 :=
            if order.paymentStatus = "Paid" then
              let w := getWallet wallet
              some { balance := w.balance + refundAmount,
                     transactions := w.transactions ++ [⟨"credit", refundAmount, "completed"⟩] }
            else wallet
          let refunded1 :=
            if order.paymentStatus = "Paid" then order.refundedAmount + refundAmount
            else order.refundedAmount
          let items1 := updateFirstItem order.orderItems pid
            (fun it => { it with status := "Cancelled" })
          let remaining := remainingItems items1
          let preStatus :=
            if remaining.length = 0 then "Cancelled"
            else if anyDelivered remaining then "Partially Cancelled"
            else order.orderStatus
          let order1 := saveOrder
            { order with
                orderItems := items1
                refundedAmount := refunded1
                orderStatus := preStatus }
          ⟨.ok (), order1, store1, wallet1⟩
    | none =>
      if strIncludes ["Shipped", "Delivered"] order.orderStatus then
        ⟨.error "Cannot cancel order in its current status.", order, store, wallet⟩
      else
        let (store1, items1) := restockAll order.orderItems store
        let wallet1 :=
          if order.paymentStatus = "Paid" then
            let w := getWallet wallet
            some { balance := w.balance + order.finalPrice,
                   transactions := w.transactions ++ [⟨"credit", order.finalPrice, "completed"⟩] }
          else wallet
        let refunded1 :=
          if order.paymentStatus = "Paid" then order.finalPrice
          else order.refundedAmount
        let order1 := saveOrder
          { order with
              orderItems := items1
              refundedAmount := refunded1
              orderStatus := "Cancelled" }
        ⟨.ok (), order1, store1, wallet1⟩

/-! ## requestReturnAdmin (order controller lines 1004-1106). -/

/-- The item statuses that block admin return processing (lines 1037-1042). -/
def returnInvalidStatus : List String :=
  ["Delivered", "Shipped", "Return Rejected", "Cancelled"]

/-- requestReturnAdmin: the admin approves or rejects an item's return
request. The order has been fetched; id-format checks are outside the
embedding. On approval the item is restocked, marked Returned, and a
refund of (totalPrice - totalPrice * couponDiscount / finalPrice),
rounded by toFixed(), is credited to the wallet. -/
def requestReturnAdmin (order : Order) (productId : Nat) (action : String)
    (store : List Product) (wallet : Option Wallet) : CancelOutcome :=
  if ¬ (action = "approve" ∨ action = "reject") then
    ⟨.error "Invalid action, please use approve or reject", order, store, wallet⟩
  else if order.orderStatus = "Cancelled" then
    ⟨.error "Order is already cancelled.", order, store, wallet⟩
  else
    match findItem order.orderItems productId with
    | none => ⟨.error "Product does not exist in this order.", order, store, wallet⟩
    | some orderItem =>
      if strIncludes returnInvalidStatus orderItem.status then
        ⟨.error "Product status does not allow return processing.", order, store, wallet⟩
      else if orderItem.returnRequest.requested = false then
        ⟨.error "No return request has been initiated.", order, store, wallet⟩
      else if orderItem.returnRequest.approved || orderItem.returnRequest.responseSent then
        ⟨.error "Return request has already been processed.", order, store, wallet⟩
      else if action = "approve" then
        match findProduct store productId with
        | none =>
          ⟨.error "TypeError: product is null.", order, store, wallet⟩
        | some product =>
          let store1 := saveProduct store
            { product with stock := product.stock + orderItem.quantity }
          let discountRatio := order.couponDiscount / order.finalPrice
          let itemDiscount := orderItem.totalPrice * discountRatio
          let refundAmount : ℚ :=
            ((jsRound (orderItem.totalPrice - itemDiscount) : ℤ) : ℚ)
          let w := getWallet wallet
          let wallet1 : Wallet :=
            { balance := w.balance + refundAmount,
              transactions := w.transactions ++ [⟨"credit", refundAmount, "completed"⟩] }
          let items1 := updateFirstItem order.orderItems productId
            (fun it =>
              { it with
                  status := "Returned"
                  returnRequest :=
                    { it.returnRequest with approved := true, responseSent := true } })
          let order1 := saveOrder
            { order with
                orderItems := items1
                refundedAmount := order.refundedAmount + refundAmount }
          ⟨.ok (), order1, store1, some wallet1⟩
      else
        let items1 := updateFirstItem order.orderItems productId
          (fun it =>
            { it with
                status := "Return Rejected"
                returnRequest :=
                  { it.returnRequest with approved := false, responseSent := true } })
        let order1 := saveOrder { order with orderItems := items1 }
        ⟨.ok (), order1, store, wallet⟩

/-! ## updateOrderStatus (order controller lines 921-997). -/

/-- The transition table of updateOrderStatus (lines 935-940); a current
status outside the table behaves as an empty allowed list through the JS
optional chaining. -/
def validTransitions (current : String) : List String :=
  if current = "Processing" then ["Shipped", "Cancelled"]
  else if current = "Shipped" then ["Delivered", "Cancelled"]
  else []

/-- Restocking loop of the admin Processing to Cancelled transition
(lines 953-961): every item of the order is restocked, regardless of
its status. -/
def restockEvery : List OrderItem → List Product → List Product
  | [], store => store
  | it :: rest, store =>
    let store0 :=
      match findProduct store it.productId with
      | some p => saveProduct store { p with stock := p.stock + it.quantity }
      | none => store
    restockEvery rest store0

/-- updateOrderStatus: the admin moves a whole order to a new status.
now is the current date in days; shipping sets deliveryBy to now plus 5
days. Every non-Cancelled item takes the new status before the save
hook recomputes the order status. -/
def updateOrderStatus (order : Order) (status : String) (store : List Product)
    (wallet : Option Wallet) (now : ℤ) : CancelOutcome :=
  if ¬ strIncludes (validTransitions order.orderStatus) status then
    ⟨.error "Invalid status transition.", order, store, wallet⟩
  else
    let deliveryBy1 :=
      if status = "Shipped" then some (now + 5) else order.deliveryBy
    let store1 :=
      if status = "Cancelled" ∧ order.orderStatus = "Processing" then
        restockEvery order.orderItems store
      else store
    let wallet1 :=
      if status = "Cancelled" ∧ order.paymentStatus = "Paid" then
        let w := getWallet wallet
        some { balance := w.balance + order.finalPrice,
               transactions := w.transactions ++ [⟨"credit", order.finalPrice, "completed"⟩] }
      else wallet
    let refunded1 :=
      if status = "Cancelled" ∧ order.paymentStatus = "Paid" then order.finalPrice
      else order.refundedAmount
    let items1 := order.orderItems.map
      (fun it => if it.status = "Cancelled" then it else { it with status := status })
    let order1 := saveOrder
      { order with
          orderItems := items1
          orderStatus := status
          deliveryBy := deliveryBy1
          refundedAmount := refunded1 }
    ⟨.ok (), order1, store1, wallet1⟩

/-! ## Coupons (src/models/coupon.model.js) and placeOrder
(order controller lines 31-209). -/

/-- One entry of a coupon's usersUsed list. -/
structure CouponUse where
  userId : Nat
  timesUsed : Nat
deriving DecidableEq, Repr

/-- A coupon document, restricted to the fields placeOrder reads. -/
structure Coupon where
  code : String
  discountType : String
  discountValue : ℚ
  minOrderAmount : ℚ
  maxDiscountAmount : Option ℚ
  perUserLimit : Nat
  usersUsed : List CouponUse
  startDate : ℤ
  endDate : ℤ
  isActive : Bool
deriving DecidableEq, Repr

/-- JS coupon.usersUsed.find(entry =&gt; entry.userId.equals(userId)). -/
def findUse : List CouponUse → Nat → Option CouponUse
  | [], _ => none
  | e :: rest, uid => if e.userId = uid then some e else findUse rest uid

/-- The usersUsed update of placeOrder (lines 127-135): push a fresh
entry with timesUsed 1 when the user has none, otherwise increment the
first matching entry. -/
def incrementUse : List CouponUse → Nat → List CouponUse
  | [], uid => [⟨uid, 1⟩]
  | e :: rest, uid =>
    if e.userId = uid then { e with timesUsed := e.timesUsed + 1 } :: rest
    else e :: incrementUse rest uid

/-- The per-user limit check of placeOrder (lines 105-112): true when
the user already has a usage entry and it has reached perUserLimit. -/
def atUsageLimit (coupon : Coupon) (userId : Nat) : Bool :=
  match findUse coupon.usersUsed userId with
  | some e => if coupon.perUserLimit ≤ e.timesUsed then true else false
  | none => false

/-- The coupon validation and discount computation of placeOrder
(lines 84-138), for a coupon found under the requested code. Dates are
integers; JS number truthiness makes a zero maxDiscountAmount fall
through to the uncapped discount. Returns the coupon discount and the
coupon with the usage recorded. -/
def applyCoupon (coupon : Coupon) (userId : Nat) (subtotal : ℚ) (currentDate : ℤ) :
    Except String (ℚ × Coupon) :=
  if coupon.isActive = false then .error "This coupon is no longer active."
  else if currentDate < coupon.startDate ∨ coupon.endDate < currentDate then
    .error "This coupon has expired."
  else if subtotal < coupon.minOrderAmount then
    .error "Minimum order amount not met."
  else if atUsageLimit coupon userId then
    .error "You have reached the usage limit for this coupon."
  else
    let couponDiscount0 : ℚ :=
      if coupon.discountType = "percentage" then
        let c := subtotal * coupon.discountValue / 100
        match coupon.maxDiscountAmount with
        | some m => if m = 0 then c else min c m
        | none => c
      else coupon.discountValue
    let couponDiscount := min couponDiscount0 subtotal
    .ok (couponDiscount, { coupon with usersUsed := incrementUse coupon.usersUsed userId })

/-- One entry of the checkout request body. -/
structure ReqItem where
  product : Nat
  quantity : Nat
deriving DecidableEq, Repr

/-- State of the per-item loop of placeOrder when it stops: either the
thrown error together with the product collection as already mutated,
or the mutated collection, the item snapshots, the subtotal and the
accumulated item discounts. -/
inductive LoopOutcome
  | failed (msg : String) (store : List Product)
  | done (store : List Product) (snaps : List OrderItem) (subtotal totalDiscount : ℚ)
deriving Repr

/-- The per-item loop of placeOrder (lines 45-81): load the product,
check stock, compute the clamped unit discount from the cached best
offer, snapshot the item, and decrement and save the product's stock
before moving to the next item. -/
def placeOrderLoop : List ReqItem → List Product → List OrderItem → ℚ → ℚ → LoopOutcome
  | [], store, snaps, subtotal, totalDiscount => .done store snaps subtotal totalDiscount
  | item :: rest, store, snaps, subtotal, totalDiscount =>
    match findProduct store item.product with
    | none => .failed "Product not found" store
    | some product =>
      if product.stock < (item.quantity : ℤ) then .failed "Insufficient stock" store
      else
        let itemDiscount : ℚ :=
          match product.bestOffer with
          | some bo => min (offerDiscount product.price bo) product.price
          | none => 0
        let snap : OrderItem :=
          { productId := item.product
            quantity := item.quantity
            price := product.price
            discount := itemDiscount
            totalPrice := (product.price - itemDiscount) * item.quantity
            status := "Pending"
            returnRequest := ⟨false, false, false⟩ }
        let store1 := saveProduct store { product with stock := product.stock - item.quantity }
        placeOrderLoop rest store1 (snaps ++ [snap])
          (subtotal + product.price * item.quantity)
          (totalDiscount + itemDiscount * item.quantity)

/-- The outcome of a checkout: the thrown error or the created order,
together with the persisted product collection, coupon and wallet. -/
structure PlaceOutcome where
  result : Except String Order
  store : List Product
  coupon : Option Coupon
  wallet : Option Wallet
deriving Repr

/-- placeOrder (order controller lines 31-209). coupon is the result of
the Coupon.findOne lookup for the requested code; addressExists models
the Address.findById check; currentDate is the clock in days. The item
loop runs first, saving each stock decrement; then the coupon step
records its usage; the address and wallet checks follow; finally the
order document is created, which runs the status pre-save hook. -/
def placeOrder (userId : Nat) (orderItems : List ReqItem) (addressExists : Bool)
    (paymentMethod : String) (couponCode : Option String) (store : List Product)
    (coupon : Option Coupon) (wallet : Option Wallet) (currentDate : ℤ) : PlaceOutcome :=
  match placeOrderLoop orderItems store [] 0 0 with
  | .failed msg store1 => ⟨.error msg, store1, coupon, wallet⟩
  | .done store1 snaps subtotal itemsDiscount =>
    let couponStep : Except String (ℚ × Option String × Option Coupon) :=
      match couponCode with
      | none => .ok (0, none, coupon)
      | some _ =>
        match coupon with
        | none => .error "Invalid coupon code."
        | some c =>
          match applyCoupon c userId subtotal currentDate with
          | .error msg => .error msg
          | .ok (cd, c1) => .ok (cd, some c1.code, some c1)
    match couponStep with
    | .error msg => ⟨.error msg, store1, coupon, wallet⟩
    | .ok (couponDiscount, appliedCoupon, coupon1) =>
      let totalDiscount := itemsDiscount + couponDiscount
      let finalPrice : ℚ := max 0 ((jsRound (subtotal - totalDiscount) : ℤ) : ℚ)
      if addressExists = false then ⟨.error "Address not found", store1, coupon1, wallet⟩
      else if paymentMethod = "Wallet" then
        let w := getWallet wallet
        if w.balance < finalPrice then
          ⟨.error "Insufficient wallet balance", store1, coupon1, some w⟩
        else
          let w1 : Wallet :=
            { balance := w.balance - finalPrice,
              transactions := w.transactions ++ [⟨"debit", finalPrice, "completed"⟩] }
          let order := saveOrder
            { user := userId
              orderItems := snaps
              totalAmount := subtotal
              totalDiscount := totalDiscount
              finalPrice := finalPrice
              couponCode := appliedCoupon
              couponDiscount := couponDiscount
              paymentMethod := paymentMethod
              paymentStatus := "Paid"
              orderStatus := "Processing"
              deliveryBy := none
              refundedAmount := 0 }
          ⟨.ok order, store1, coupon1, some w1⟩
      else
        let order := saveOrder
          { user := userId
            orderItems := snaps
            totalAmount := subtotal
            totalDiscount := totalDiscount
            finalPrice := finalPrice
            couponCode := appliedCoupon
            couponDiscount := couponDiscount
            paymentMethod := paymentMethod
            paymentStatus := "Pending"
            orderStatus := "Processing"
            deliveryBy := none
            refundedAmount := 0 }
        ⟨.ok order, store1, coupon1, wallet⟩

/-- Per-item discount mass of a list of order items: the sum of
discount times quantity over the items. -/
def itemsDiscountSum : List OrderItem → ℚ
  | [] => 0
  | it :: rest => it.discount * it.quantity + itemsDiscountSum rest

/-! ## Theorems. -/

theorem mem_activeOffers {o : Offer} :
    ∀ {l : List Offer}, o ∈ activeOffers l → o.isActive = true := by
  intro l
  induction l with
  | nil => intro h; simp [activeOffers] at h
  | cons p rest ih =>
    intro h
    by_cases hp : p.isActive
    · rw [activeOffers, if_pos hp] at h
      rcases List.mem_cons.mp h with rfl | h
      · exact hp
      · exact ih h
    · rw [activeOffers, if_neg hp] at h
      exact ih h

/-- The loop of selectBestOfferForProduct, run over active offers from
an arbitrary starting state: either no offer beats the starting best
discount and the state is returned unchanged, or the final state holds
the first offer of maximal discount among those beating it. -/
theorem bestOfferLoop_spec (price : ℚ) :
    ∀ (l : List Offer), (∀ o ∈ l, o.isActive = true) →
    ∀ (b : Option Offer) (d p0 : ℚ),
      ((∀ o ∈ l, offerDiscount price o ≤ d) ∧
        bestOfferLoop price l ⟨b, d, p0⟩ = ⟨b, d, p0⟩) ∨
      (∃ (i : ℕ) (hi : i < l.length),
        d < offerDiscount price (l.get ⟨i, hi⟩) ∧
        (∀ (j : ℕ) (hj : j < l.length),
          offerDiscount price (l.get ⟨j, hj⟩) ≤ offerDiscount price (l.get ⟨i, hi⟩)) ∧
        (∀ (j : ℕ) (hj : j < l.length), j < i →
          offerDiscount price (l.get ⟨j, hj⟩) < offerDiscount price (l.get ⟨i, hi⟩)) ∧
        bestOfferLoop price l ⟨b, d, p0⟩ =
          ⟨some (l.get ⟨i, hi⟩), offerDiscount price (l.get ⟨i, hi⟩),
            max (price - offerDiscount price (l.get ⟨i, hi⟩)) 0⟩) := by
  intro l
  induction l with
  | nil =>
    intro _ b d p0
    exact Or.inl ⟨by intro o ho; simp at ho, rfl⟩
  | cons o rest ih =>
    intro h b d p0
    have ho : o.isActive = true := h o (List.mem_cons_self o rest)
    have hrest : ∀ o' ∈ rest, o'.isActive = true :=
      fun o' ho' => h o' (List.mem_cons_of_mem o ho')
    have step : bestOfferLoop price (o :: rest) ⟨b, d, p0⟩ =
        (if d < offerDiscount price o then
          bestOfferLoop price rest
            ⟨some o, offerDiscount price o, max (price - offerDiscount price o) 0⟩
        else bestOfferLoop price rest ⟨b, d, p0⟩) := by
      simp only [bestOfferLoop, ho, if_true]
    by_cases hd : d < offerDiscount price o
    · rw [if_pos hd] at step
      rcases ih hrest (some o) (offerDiscount price o)
          (max (price - offerDiscount price o) 0) with ⟨hall, heq⟩ | ⟨i, hi, h1, h2, h3, heq⟩
      · refine Or.inr ⟨0, Nat.succ_pos _, hd, ?_, ?_, ?_⟩
        · intro j hj
          cases j with
          | zero => exact le_refl _
          | succ k =>
            exact hall (rest.get ⟨k, Nat.lt_of_succ_lt_succ hj⟩)
              (List.get_mem rest k (Nat.lt_of_succ_lt_succ hj))
        · intro j hj hj0
          exact absurd hj0 (Nat.not_lt_zero j)
        · rw [step, heq]
          rfl
      · refine Or.inr ⟨i + 1, Nat.succ_lt_succ hi, lt_trans hd h1, ?_, ?_, ?_⟩
        · intro j hj
          cases j with
          | zero => exact le_of_lt h1
          | succ k => exact h2 k (Nat.lt_of_succ_lt_succ hj)
        · intro j hj hji
          cases j with
          | zero => exact h1
          | succ k => exact h3 k (Nat.lt_of_succ_lt_succ hj) (Nat.lt_of_succ_lt_succ hji)
        · rw [step, heq]
          rfl
    · rw [if_neg hd] at step
      have hd' : offerDiscount price o ≤ d := le_of_not_lt hd
      rcases ih hrest b d p0 with ⟨hall, heq⟩ | ⟨i, hi, h1, h2, h3, heq⟩
      · refine Or.inl ⟨?_, by rw [step, heq]⟩
        intro o' ho'
        rcases List.mem_cons.mp ho' with rfl | ho'
        · exact hd'
        · exact hall o' ho'
      · refine Or.inr ⟨i + 1, Nat.succ_lt_succ hi, h1, ?_, ?_, ?_⟩
        · intro j hj
          cases j with
          | zero => exact hd'.trans (le_of_lt h1)
          | succ k => exact h2 k (Nat.lt_of_succ_lt_succ hj)
        · intro j hj hji
          cases j with
          | zero => exact lt_of_le_of_lt hd' h1
          | succ k => exact h3 k (Nat.lt_of_succ_lt_succ hj) (Nat.lt_of_succ_lt_succ hji)
        · rw [step, heq]
          rfl

/-- C1: selectBestOfferForProduct picks, among the active applicable
offers, the one of maximal absolute discount, the first in list order
winning ties; with at least one active offer it returns that winner
together with round(max(price - discount, 0), 2) as discounted price;
with none it returns null and null, so discountedPrice is null exactly
when bestOffer is; and on price 1000 with a 10 percent offer and a flat
150 offer, the flat 150 wins with discounted price 850. Positivity of
each active offer's discount reflects the admin validation: discount
values are positive, percentages are between 1 and 80, prices positive. -/
theorem selectBestOfferForProduct_correct (price : ℚ) (offers : List Offer)
    (hpos : ∀ o ∈ activeOffers offers, 0 < offerDiscount price o) :
    (((selectBestOfferForProduct price offers).2 = none) ↔
      ((selectBestOfferForProduct price offers).1 = none)) ∧
    (activeOffers offers = [] → selectBestOfferForProduct price offers = (none, none)) ∧
    (activeOffers offers ≠ [] →
      ∃ (i : ℕ) (hi : i < (activeOffers offers).length),
        (selectBestOfferForProduct price offers).1 =
          some ((activeOffers offers).get ⟨i, hi⟩) ∧
        (∀ (j : ℕ) (hj : j < (activeOffers offers).length),
          offerDiscount price ((activeOffers offers).get ⟨j, hj⟩) ≤
            offerDiscount price ((activeOffers offers).get ⟨i, hi⟩)) ∧
        (∀ (j : ℕ) (hj : j < (activeOffers offers).length), j < i →
          offerDiscount price ((activeOffers offers).get ⟨j, hj⟩) <
            offerDiscount price ((activeOffers offers).get ⟨i, hi⟩)) ∧
        (selectBestOfferForProduct price offers).2 =
          some (round2 (max (price -
            offerDiscount price ((activeOffers offers).get ⟨i, hi⟩)) 0))) ∧
    selectBestOfferForProduct 1000 [exBrandOffer, exFlatOffer] =
      (some exFlatOffer, some 850) := by
  have hscen : selectBestOfferForProduct 1000 [exBrandOffer, exFlatOffer] =
      (some exFlatOffer, some 850) := by
    have h1 : bestOfferLoop 1000 (activeOffers [exBrandOffer, exFlatOffer]) ⟨none, 0, 1000⟩ =
        ⟨some exFlatOffer, 150, 850⟩ := by
      simp only [activeOffers, bestOfferLoop, offerDiscount, exBrandOffer, exFlatOffer,
        String.reduceEq, if_true, if_false]
      norm_num
    rw [selectBestOfferForProduct, h1]
    norm_num [round2, jsRound, exFlatOffer]
  rcases bestOfferLoop_spec price (activeOffers offers)
      (fun o ho => mem_activeOffers ho) none 0 price with
    ⟨hall, heq⟩ | ⟨i, hi, h1, h2, h3, heq⟩
  · have hnil : activeOffers offers = [] := by
      cases hA : activeOffers offers with
      | nil => rfl
      | cons o rest =>
        have hmem : o ∈ activeOffers offers := by rw [hA]; exact List.mem_cons_self o rest
        exact absurd (hpos o hmem) (not_lt.mpr (hall o hmem))
    have hres : selectBestOfferForProduct price offers = (none, none) := by
      simp only [selectBestOfferForProduct, heq]
    refine ⟨?_, fun _ => hres, fun hne => absurd hnil hne, hscen⟩
    rw [hres]
    exact Iff.intro (fun _ => rfl) (fun _ => rfl)
  · have hres : selectBestOfferForProduct price offers =
        (some ((activeOffers offers).get ⟨i, hi⟩),
          some (round2 (max (price -
            offerDiscount price ((activeOffers offers).get ⟨i, hi⟩)) 0))) := by
      simp only [selectBestOfferForProduct, heq]
    refine ⟨by rw [hres]; simp, ?_, ?_, hscen⟩
    · intro hA
      rw [hA] at hi
      exact absurd hi (Nat.not_lt_zero i)
    · intro _
      exact ⟨i, hi, by rw [hres], h2, h3, by rw [hres]⟩

/-- Witness for C1 at the pricing scenario: price 1000, a 10 percent
offer and a flat 150 amount offer, both active. -/
theorem selectBestOfferForProduct_correct_witness :
    (((selectBestOfferForProduct 1000 [exBrandOffer, exFlatOffer]).2 = none) ↔
      ((selectBestOfferForProduct 1000 [exBrandOffer, exFlatOffer]).1 = none)) ∧
    (activeOffers [exBrandOffer, exFlatOffer] = [] →
      selectBestOfferForProduct 1000 [exBrandOffer, exFlatOffer] = (none, none)) ∧
    (activeOffers [exBrandOffer, exFlatOffer] ≠ [] →
      ∃ (i : ℕ) (hi : i < (activeOffers [exBrandOffer, exFlatOffer]).length),
        (selectBestOfferForProduct 1000 [exBrandOffer, exFlatOffer]).1 =
          some ((activeOffers [exBrandOffer, exFlatOffer]).get ⟨i, hi⟩) ∧
        (∀ (j : ℕ) (hj : j < (activeOffers [exBrandOffer, exFlatOffer]).length),
          offerDiscount 1000 ((activeOffers [exBrandOffer, exFlatOffer]).get ⟨j, hj⟩) ≤
            offerDiscount 1000 ((activeOffers [exBrandOffer, exFlatOffer]).get ⟨i, hi⟩)) ∧
        (∀ (j : ℕ) (hj : j < (activeOffers [exBrandOffer, exFlatOffer]).length), j < i →
          offerDiscount 1000 ((activeOffers [exBrandOffer, exFlatOffer]).get ⟨j, hj⟩) <
            offerDiscount 1000 ((activeOffers [exBrandOffer, exFlatOffer]).get ⟨i, hi⟩)) ∧
        (selectBestOfferForProduct 1000 [exBrandOffer, exFlatOffer]).2 =
          some (round2 (max ((1000 : ℚ) -
            offerDiscount 1000 ((activeOffers [exBrandOffer, exFlatOffer]).get ⟨i, hi⟩)) 0))) ∧
    selectBestOfferForProduct 1000 [exBrandOffer, exFlatOffer] =
      (some exFlatOffer, some 850) :=
  selectBestOfferForProduct_correct 1000 [exBrandOffer, exFlatOffer] (by
    intro o ho
    simp only [activeOffers, exBrandOffer, exFlatOffer, if_true] at ho
    fin_cases ho <;>
      (simp only [offerDiscount, String.reduceEq, if_true, if_false]; norm_num))

/-- C2: cancelling one item of a paid, coupon-bearing order refunds
round(itemTotalPrice - itemTotalPrice / totalAmount * couponDiscount),
appends exactly that credit to the user's wallet, adds it to its
balance, and adds it to the order's accumulated refundedAmount. -/
theorem cancelOrder_couponRefund (order : Order) (pid : Nat) (store : List Product)
    (wallet : Option Wallet) (item : OrderItem)
    (hstatus : order.orderStatus ≠ "Cancelled")
    (hfind : findItem order.orderItems pid = some item)
    (hok : strIncludes cancelInvalidStatus item.status = false)
    (hcoupon : order.couponCode.isSome = true)
    (hpaid : order.paymentStatus = "Paid") :
    (cancelOrder order (some pid) store wallet).result = Except.ok () ∧
    (cancelOrder order (some pid) store wallet).wallet =
      some { balance := (getWallet wallet).balance + ((jsRound (item.totalPrice -
               item.totalPrice / order.totalAmount * order.couponDiscount) : ℤ) : ℚ)
             transactions := (getWallet wallet).transactions ++
               [⟨"credit", ((jsRound (item.totalPrice -
                 item.totalPrice / order.totalAmount * order.couponDiscount) : ℤ) : ℚ),
                 "completed"⟩] } ∧
    (cancelOrder order (some pid) store wallet).order.refundedAmount =
      order.refundedAmount + ((jsRound (item.totalPrice -
        item.totalPrice / order.totalAmount * order.couponDiscount) : ℤ) : ℚ) := by
  have h1 : ¬ (order.orderStatus = "Cancelled") := hstatus
  have h2 : ¬ (strIncludes cancelInvalidStatus item.status = true) := by
    rw [hok]; exact Bool.false_ne_true
  simp only [cancelOrder, if_neg h1, hfind, if_neg h2, hcoupon, hpaid, saveOrder,
    String.reduceEq, reduceIte, if_true]
  exact ⟨trivial, trivial, trivial⟩

/-- The refund scenario order: two items worth 600 and 400, total 1000,
coupon discount 100, paid. -/
def refundDemoItem : OrderItem := ⟨1, 1, 600, 0, 600, "Pending", ⟨false, false, false⟩⟩

/-- Second item of the refund scenario order. -/
def refundDemoItem2 : OrderItem := ⟨2, 1, 400, 0, 400, "Pending", ⟨false, false, false⟩⟩

/-- The refund scenario order document. -/
def refundDemoOrder : Order :=
  { user := 7
    orderItems := [refundDemoItem, refundDemoItem2]
    totalAmount := 1000
    totalDiscount := 100
    finalPrice := 900
    couponCode := some "SAVE"
    couponDiscount := 100
    paymentMethod := "Wallet"
    paymentStatus := "Paid"
    orderStatus := "Processing"
    deliveryBy := none
    refundedAmount := 0 }

/-- The product collection of the refund scenario. -/
def refundDemoStore : List Product := [⟨1, 600, 3, none⟩, ⟨2, 400, 3, none⟩]

/-- Witness for C2: cancelling the item worth 600 of the scenario order
refunds round(600 - (600 / 1000) * 100) = 540. -/
theorem cancelOrder_couponRefund_witness :
    (cancelOrder refundDemoOrder (some 1) refundDemoStore (some ⟨0, []⟩)).result =
      Except.ok () ∧
    (cancelOrder refundDemoOrder (some 1) refundDemoStore (some ⟨0, []⟩)).wallet =
      some { balance := 540, transactions := [⟨"credit", 540, "completed"⟩] } ∧
    (cancelOrder refundDemoOrder (some 1) refundDemoStore (some ⟨0, []⟩)).order.refundedAmount
      = 540 := by
  obtain ⟨h1, h2, h3⟩ := cancelOrder_couponRefund refundDemoOrder 1 refundDemoStore
    (some ⟨0, []⟩) refundDemoItem
    (by decide)
    (by rw [refundDemoOrder]; simp [findItem, refundDemoItem])
    (by decide)
    (by decide)
    (by decide)
  refine ⟨h1, ?_, ?_⟩
  · rw [h2]
    norm_num [getWallet, jsRound, refundDemoItem, refundDemoOrder]
  · rw [h3]
    norm_num [jsRound, refundDemoItem, refundDemoOrder]

theorem strIncludes_iff (l : List String) (s : String) :
    strIncludes l s = true ↔ s ∈ l := by
  induction l with
  | nil => simp [strIncludes]
  | cons x rest ih =>
    rw [strIncludes]
    by_cases hx : x = s
    · subst hx
      simp
    · rw [if_neg hx, ih]
      constructor
      · exact fun h => List.mem_cons_of_mem x h
      · intro h
        rcases List.mem_cons.mp h with h | h
        · exact absurd h.symm hx
        · exact h

theorem allIn_iff (l allowed : List String) :
    allIn l allowed = true ↔ ∀ x ∈ l, strIncludes allowed x = true := by
  induction l with
  | nil => simp [allIn]
  | cons x rest ih =>
    rw [allIn]
    by_cases hx : strIncludes allowed x = true
    · rw [if_pos hx, ih]
      constructor
      · intro h y hy
        rcases List.mem_cons.mp hy with rfl | hy
        · exact hx
        · exact h y hy
      · exact fun h y hy => h y (List.mem_cons_of_mem x hy)
    · rw [if_neg hx]
      constructor
      · intro h
        exact absurd h Bool.false_ne_true
      · intro h
        exact absurd (h x (List.mem_cons_self x rest)) hx

/-- The pre-save hook collapses an all-Cancelled item list to a
Cancelled order. -/
theorem deriveOrderStatus_cancelled (statuses : List String)
    (h : ∀ s ∈ statuses, s = "Cancelled") :
    deriveOrderStatus statuses = "Cancelled" := by
  rw [deriveOrderStatus, if_pos]
  rw [allIn_iff]
  intro x hx
  rw [h x hx]
  decide

/-- The pre-save hook sends a list of Delivered and Cancelled item
statuses containing at least one Delivered to Delivered, through the
fifth branch of the chain. -/
theorem deriveOrderStatus_delivered (statuses : List String)
    (hall : ∀ s ∈ statuses, s = "Delivered" ∨ s = "Cancelled")
    (hdel : "Delivered" ∈ statuses) :
    deriveOrderStatus statuses = "Delivered" := by
  have h1 : allIn statuses ["Cancelled"] = false := by
    rw [Bool.eq_false_iff]
    intro hc
    rw [allIn_iff] at hc
    exact absurd (hc _ hdel) (by decide)
  have h2 : allIn statuses ["Returned"] = false := by
    rw [Bool.eq_false_iff]
    intro hc
    rw [allIn_iff] at hc
    exact absurd (hc _ hdel) (by decide)
  have h3 : allIn statuses ["Return Rejected"] = false := by
    rw [Bool.eq_false_iff]
    intro hc
    rw [allIn_iff] at hc
    exact absurd (hc _ hdel) (by decide)
  have h4 : strIncludes statuses "Return Requested" = false := by
    rw [Bool.eq_false_iff]
    intro hc
    rw [strIncludes_iff] at hc
    rcases hall _ hc with h | h <;> exact absurd h (by decide)
  have h5 : allIn statuses ["Delivered", "Cancelled"] = true := by
    rw [allIn_iff]
    intro x hx
    rcases hall x hx with rfl | rfl <;> decide
  rw [deriveOrderStatus, if_neg (by rw [h1]; exact Bool.false_ne_true),
    if_neg (by rw [h2]; exact Bool.false_ne_true),
    if_neg (by rw [h3]; exact Bool.false_ne_true),
    if_neg (by rw [h4]; exact Bool.false_ne_true), if_pos h5]

/-- Projection fact: saving leaves the items unchanged. -/
theorem saveOrder_orderItems (o : Order) : (saveOrder o).orderItems = o.orderItems := rfl

/-- Projection fact: saving persists the hook-derived status. -/
theorem saveOrder_orderStatus (o : Order) :
    (saveOrder o).orderStatus = deriveOrderStatus (itemStatuses o.orderItems) := rfl

/-- Shared second item (worth 400, Pending) of the status scenarios. -/
def statusDemoItem2 : OrderItem := ⟨2, 1, 400, 0, 400, "Pending", ⟨false, false, false⟩⟩

/-- Status scenario order: one Delivered item and one Pending item, no
coupon, payment pending. -/
def statusDemoOrder : Order :=
  { user := 7
    orderItems := [⟨1, 1, 600, 0, 600, "Delivered", ⟨false, false, false⟩⟩, statusDemoItem2]
    totalAmount := 1000
    totalDiscount := 0
    finalPrice := 1000
    couponCode := none
    couponDiscount := 0
    paymentMethod := "Cash on Delivery"
    paymentStatus := "Pending"
    orderStatus := "Processing"
    deliveryBy := none
    refundedAmount := 0 }

/-- Status scenario order with a Returned first item instead. -/
def statusDemoOrderB : Order :=
  { statusDemoOrder with
      orderItems := [⟨1, 1, 600, 0, 600, "Returned", ⟨true, true, true⟩⟩, statusDemoItem2] }

/-- C3 counterexample: cancelling the Pending item of an order whose
other item is Delivered persists orderStatus Delivered, not the
Partially Cancelled the claim requires; and cancelling the Pending item
of an order whose other item is Returned leaves no active item yet
persists Processing, not Cancelled. The pre-save hook overrides the
controller's assignment in both cases. -/
theorem cancelOrder_orderStatus_counterexample :
    (cancelOrder statusDemoOrder (some 2) refundDemoStore none).result = Except.ok () ∧
    (cancelOrder statusDemoOrder (some 2) refundDemoStore none).order.orderStatus =
      "Delivered" ∧
    (cancelOrder statusDemoOrder (some 2) refundDemoStore none).order.orderStatus ≠
      "Partially Cancelled" ∧
    (cancelOrder statusDemoOrderB (some 2) refundDemoStore none).result = Except.ok () ∧
    (cancelOrder statusDemoOrderB (some 2) refundDemoStore none).order.orderStatus =
      "Processing" ∧
    (cancelOrder statusDemoOrderB (some 2) refundDemoStore none).order.orderStatus ≠
      "Cancelled" := by
  refine ⟨rfl, rfl, ?_, rfl, rfl, ?_⟩
  · intro hc
    exact absurd ((rfl : (cancelOrder statusDemoOrder (some 2) refundDemoStore
      none).order.orderStatus = "Delivered") ▸ hc) (by decide)
  · intro hc
    exact absurd ((rfl : (cancelOrder statusDemoOrderB (some 2) refundDemoStore
      none).order.orderStatus = "Processing") ▸ hc) (by decide)

/-- C3 amended: after a successful per-item cancellation the persisted
orderStatus is whatever the pre-save hook derives from the item
statuses (overriding the controller's Cancelled / Partially Cancelled
assignment); in particular it is Cancelled when every item ends up
Cancelled, and it is Delivered, not Partially Cancelled, when the items
are a mix of Delivered and Cancelled only. -/
theorem cancelOrder_orderStatus_amended (order : Order) (pid : Nat)
    (store : List Product) (wallet : Option Wallet) (item : OrderItem)
    (hstatus : order.orderStatus ≠ "Cancelled")
    (hfind : findItem order.orderItems pid = some item)
    (hok : strIncludes cancelInvalidStatus item.status = false) :
    (cancelOrder order (some pid) store wallet).result = Except.ok () ∧
    (cancelOrder order (some pid) store wallet).order.orderStatus =
      deriveOrderStatus
        (itemStatuses (cancelOrder order (some pid) store wallet).order.orderItems) ∧
    ((∀ it ∈ (cancelOrder order (some pid) store wallet).order.orderItems,
        it.status = "Cancelled") →
      (cancelOrder order (some pid) store wallet).order.orderStatus = "Cancelled") ∧
    ((∀ it ∈ (cancelOrder order (some pid) store wallet).order.orderItems,
        it.status = "Delivered" ∨ it.status = "Cancelled") →
      (∃ it ∈ (cancelOrder order (some pid) store wallet).order.orderItems,
        it.status = "Delivered") →
      (cancelOrder order (some pid) store wallet).order.orderStatus = "Delivered") := by
  have h1 : ¬ (order.orderStatus = "Cancelled") := hstatus
  have h2 : ¬ (strIncludes cancelInvalidStatus item.status = true) := by
    rw [hok]; exact Bool.false_ne_true
  have hmain : (cancelOrder order (some pid) store wallet).result = Except.ok () ∧
      ∃ o1 : Order, (cancelOrder order (some pid) store wallet).order = saveOrder o1 := by
    simp only [cancelOrder, if_neg h1, hfind, if_neg h2]
    exact ⟨trivial, ⟨_, rfl⟩⟩
  obtain ⟨hres, o1, ho1⟩ := hmain
  have hderived : (cancelOrder order (some pid) store wallet).order.orderStatus =
      deriveOrderStatus
        (itemStatuses (cancelOrder order (some pid) store wallet).order.orderItems) := by
    rw [ho1, saveOrder_orderStatus, saveOrder_orderItems]
  refine ⟨hres, hderived, ?_, ?_⟩
  · intro hall
    rw [hderived]
    apply deriveOrderStatus_cancelled
    intro s hs
    rw [itemStatuses] at hs
    rcases List.mem_map.mp hs with ⟨it, hit, rfl⟩
    exact hall it hit
  · intro hall hdel
    rw [hderived]
    apply deriveOrderStatus_delivered
    · intro s hs
      rw [itemStatuses] at hs
      rcases List.mem_map.mp hs with ⟨it, hit, rfl⟩
      exact hall it hit
    · rcases hdel with ⟨it, hit, hst⟩
      rw [itemStatuses]
      exact List.mem_map.mpr ⟨it, hit, hst⟩

/-- Witness for the amended C3 at the Delivered plus Pending scenario. -/
theorem cancelOrder_orderStatus_amended_witness :
    (cancelOrder statusDemoOrder (some 2) refundDemoStore none).result = Except.ok () ∧
    (cancelOrder statusDemoOrder (some 2) refundDemoStore none).order.orderStatus =
      deriveOrderStatus
        (itemStatuses (cancelOrder statusDemoOrder (some 2) refundDemoStore
          none).order.orderItems) ∧
    ((∀ it ∈ (cancelOrder statusDemoOrder (some 2) refundDemoStore none).order.orderItems,
        it.status = "Cancelled") →
      (cancelOrder statusDemoOrder (some 2) refundDemoStore none).order.orderStatus =
        "Cancelled") ∧
    ((∀ it ∈ (cancelOrder statusDemoOrder (some 2) refundDemoStore none).order.orderItems,
        it.status = "Delivered" ∨ it.status = "Cancelled") →
      (∃ it ∈ (cancelOrder statusDemoOrder (some 2) refundDemoStore none).order.orderItems,
        it.status = "Delivered") →
      (cancelOrder statusDemoOrder (some 2) refundDemoStore none).order.orderStatus =
        "Delivered") :=
  cancelOrder_orderStatus_amended statusDemoOrder 2 refundDemoStore none statusDemoItem2
    (by decide) rfl (by decide)

/-- Updating the first item with a given product id by a
productId-preserving function commutes with looking that item up. -/
theorem findItem_updateFirstItem (items : List OrderItem) (pid : Nat)
    (f : OrderItem → OrderItem) (hf : ∀ it, (f it).productId = it.productId) :
    findItem (updateFirstItem items pid f) pid = (findItem items pid).map f := by
  induction items with
  | nil => rfl
  | cons it rest ih =>
    by_cases h : it.productId = pid
    · rw [updateFirstItem, if_pos h, findItem, if_pos (by rw [hf it]; exact h),
        findItem, if_pos h]
      rfl
    · rw [updateFirstItem, if_neg h, findItem, if_neg h, findItem, if_neg h, ih]

/-- C6: a return request already approved or answered is rejected with
an error by requestReturnAdmin, for either action, leaving order,
product collection and wallet untouched; and every successful call
marks the item's returnRequest as responseSent, so the guard then
blocks any further processing of the same item. -/
theorem requestReturnAdmin_idempotent :
    (∀ (order : Order) (pid : Nat) (action : String) (store : List Product)
        (wallet : Option Wallet) (item : OrderItem),
      findItem order.orderItems pid = some item →
      (item.returnRequest.approved = true ∨ item.returnRequest.responseSent = true) →
      (∃ msg, (requestReturnAdmin order pid action store wallet).result =
        Except.error msg) ∧
      (requestReturnAdmin order pid action store wallet).order = order ∧
      (requestReturnAdmin order pid action store wallet).store = store ∧
      (requestReturnAdmin order pid action store wallet).wallet = wallet) ∧
    (∀ (order : Order) (pid : Nat) (action : String) (store : List Product)
        (wallet : Option Wallet),
      (requestReturnAdmin order pid action store wallet).result = Except.ok () →
      ∃ it1, findItem (requestReturnAdmin order pid action store wallet).order.orderItems
          pid = some it1 ∧
        it1.returnRequest.responseSent = true) := by
  constructor
  · intro order pid action store wallet item hfind hproc
    have hor : (item.returnRequest.approved || item.returnRequest.responseSent) = true := by
      rcases hproc with h | h <;> simp [h]
    simp only [requestReturnAdmin, hfind]
    split_ifs with h1 h2 h3 h4
    all_goals exact ⟨⟨_, rfl⟩, rfl, rfl, rfl⟩
  · intro order pid action store wallet hres
    cases hfi : findItem order.orderItems pid with
    | none =>
      rw [requestReturnAdmin, hfi] at hres
      split_ifs at hres <;> simp at hres
    | some item =>
      simp only [requestReturnAdmin, hfi] at hres ⊢
      by_cases hc1 : action = "approve" ∨ action = "reject"
      case neg =>
        rw [if_pos hc1] at hres
        exact absurd hres (by simp)
      rw [if_neg (not_not_intro hc1)] at hres ⊢
      by_cases hc2 : order.orderStatus = "Cancelled"
      case pos =>
        rw [if_pos hc2] at hres
        exact absurd hres (by simp)
      rw [if_neg hc2] at hres ⊢
      by_cases hc3 : strIncludes returnInvalidStatus item.status = true
      case pos =>
        rw [if_pos hc3] at hres
        exact absurd hres (by simp)
      rw [if_neg hc3] at hres ⊢
      by_cases hc4 : item.returnRequest.requested = false
      case pos =>
        rw [if_pos hc4] at hres
        exact absurd hres (by simp)
      rw [if_neg hc4] at hres ⊢
      by_cases hc5 :
        (item.returnRequest.approved || item.returnRequest.responseSent) = true
      case pos =>
        rw [if_pos hc5] at hres
        exact absurd hres (by simp)
      rw [if_neg hc5] at hres ⊢
      by_cases hc6 : action = "approve"
      · rw [if_pos hc6] at hres ⊢
        cases hfp : findProduct store pid with
        | none =>
          rw [hfp] at hres
          exact absurd hres (by simp)
        | some product =>
          refine ⟨{ item with
              status := "Returned"
              returnRequest :=
                { item.returnRequest with approved := true, responseSent := true } },
            ?_, rfl⟩
          show findItem (updateFirstItem order.orderItems pid
            (fun it => { it with
              status := "Returned"
              returnRequest :=
                { it.returnRequest with approved := true, responseSent := true } })) pid =
            some ({ item with
              status := "Returned"
              returnRequest :=
                { item.returnRequest with approved := true, responseSent := true } })
          rw [findItem_updateFirstItem order.orderItems pid
            (fun it => { it with
              status := "Returned"
              returnRequest :=
                { it.returnRequest with approved := true, responseSent := true } })
            (fun it => rfl), hfi]
          rfl
      · rw [if_neg hc6]
        refine ⟨{ item with
            status := "Return Rejected"
            returnRequest :=
              { item.returnRequest with approved := false, responseSent := true } },
          ?_, rfl⟩
        show findItem (updateFirstItem order.orderItems pid
          (fun it => { it with
            status := "Return Rejected"
            returnRequest :=
              { it.returnRequest with approved := false, responseSent := true } })) pid =
          some ({ item with
            status := "Return Rejected"
            returnRequest :=
              { item.returnRequest with approved := false, responseSent := true } })
        rw [findItem_updateFirstItem order.orderItems pid
          (fun it => { it with
            status := "Return Rejected"
            returnRequest :=
              { it.returnRequest with approved := false, responseSent := true } })
          (fun it => rfl), hfi]
        rfl

/-- Witness for C6: the Returned item of the second status scenario has
approved and responseSent already set, so a further approve call fails
and changes nothing. -/
theorem requestReturnAdmin_idempotent_witness :
    (∃ msg, (requestReturnAdmin statusDemoOrderB 1 "approve" refundDemoStore
      none).result = Except.error msg) ∧
    (requestReturnAdmin statusDemoOrderB 1 "approve" refundDemoStore none).order =
      statusDemoOrderB ∧
    (requestReturnAdmin statusDemoOrderB 1 "approve" refundDemoStore none).store =
      refundDemoStore ∧
    (requestReturnAdmin statusDemoOrderB 1 "approve" refundDemoStore none).wallet = none :=
  requestReturnAdmin_idempotent.1 statusDemoOrderB 1 "approve" refundDemoStore none
    ⟨1, 1, 600, 0, 600, "Returned", ⟨true, true, true⟩⟩ rfl (Or.inl rfl)

/-- Return refund scenario: paid order of 1000 with coupon discount 100
and final price 900; the first item (600) has an open return request. -/
def returnDemoOrder : Order :=
  { user := 7
    orderItems :=
      [⟨1, 1, 600, 0, 600, "Pending", ⟨true, false, false⟩⟩,
        ⟨2, 1, 400, 0, 400, "Delivered", ⟨false, false, false⟩⟩]
    totalAmount := 1000
    totalDiscount := 100
    finalPrice := 900
    couponCode := some "SAVE"
    couponDiscount := 100
    paymentMethod := "Wallet"
    paymentStatus := "Paid"
    orderStatus := "Processing"
    deliveryBy := none
    refundedAmount := 0 }

/-- C5 counterexample: on the same order and the same item worth 600,
per-item cancellation refunds round(600 - 600 / 1000 * 100) = 540 (the
coupon apportioned over totalAmount 1000) while admin return approval
refunds round(600 - 600 * (100 / 900)) = 533 (the coupon apportioned
over finalPrice 900), so the two refunds differ. -/
theorem returnRefund_mismatch_counterexample :
    (cancelOrder returnDemoOrder (some 1) refundDemoStore (some ⟨0, []⟩)).result =
      Except.ok () ∧
    (cancelOrder returnDemoOrder (some 1) refundDemoStore
      (some ⟨0, []⟩)).order.refundedAmount = 540 ∧
    (requestReturnAdmin returnDemoOrder 1 "approve" refundDemoStore
      (some ⟨0, []⟩)).result = Except.ok () ∧
    (requestReturnAdmin returnDemoOrder 1 "approve" refundDemoStore
      (some ⟨0, []⟩)).order.refundedAmount = 533 ∧
    (533 : ℚ) ≠ 540 := by
  refine ⟨?_, ?_, ?_, ?_, by norm_num⟩
  · simp [cancelOrder, returnDemoOrder, findItem, strIncludes, cancelInvalidStatus,
      getWallet, saveOrder, String.reduceEq, updateFirstItem, remainingItems,
      settledStatus, anyDelivered, itemStatuses, deriveOrderStatus, allIn, findProduct,
      saveProduct]
  · simp [cancelOrder, returnDemoOrder, findItem, strIncludes, cancelInvalidStatus,
      getWallet, saveOrder, String.reduceEq, updateFirstItem, remainingItems,
      settledStatus, anyDelivered, itemStatuses, deriveOrderStatus, allIn, findProduct,
      saveProduct]
    norm_num [jsRound]
  · simp [requestReturnAdmin, returnDemoOrder, findItem, strIncludes,
      returnInvalidStatus, getWallet, saveOrder, String.reduceEq, updateFirstItem,
      itemStatuses, deriveOrderStatus, allIn, findProduct, saveProduct]
  · simp [requestReturnAdmin, returnDemoOrder, findItem, strIncludes,
      returnInvalidStatus, getWallet, saveOrder, String.reduceEq, updateFirstItem,
      itemStatuses, deriveOrderStatus, allIn, findProduct, saveProduct]
    norm_num [jsRound]

/-- C5 amended: admin return approval refunds
round(itemTotalPrice - itemTotalPrice * (couponDiscount / finalPrice)),
apportioning the coupon by the ratio couponDiscount / finalPrice, which
matches the cancellation formula round(itemTotalPrice -
itemTotalPrice / totalAmount * couponDiscount) only when finalPrice
equals totalAmount; the refund is credited to the wallet regardless of
payment status. -/
theorem requestReturnAdmin_refund_amended (order : Order) (pid : Nat)
    (store : List Product) (wallet : Option Wallet) (item : OrderItem) (product : Product)
    (hstatus : order.orderStatus ≠ "Cancelled")
    (hfind : findItem order.orderItems pid = some item)
    (hok : strIncludes returnInvalidStatus item.status = false)
    (hreq : item.returnRequest.requested = true)
    (happ : item.returnRequest.approved = false)
    (hsent : item.returnRequest.responseSent = false)
    (hprod : findProduct store pid = some product) :
    (requestReturnAdmin order pid "approve" store wallet).result = Except.ok () ∧
    (requestReturnAdmin order pid "approve" store wallet).order.refundedAmount =
      order.refundedAmount + ((jsRound (item.totalPrice -
        item.totalPrice * (order.couponDiscount / order.finalPrice)) : ℤ) : ℚ) ∧
    (requestReturnAdmin order pid "approve" store wallet).wallet =
      some { balance := (getWallet wallet).balance + ((jsRound (item.totalPrice -
               item.totalPrice * (order.couponDiscount / order.finalPrice)) : ℤ) : ℚ)
             transactions := (getWallet wallet).transactions ++
               [⟨"credit", ((jsRound (item.totalPrice -
                 item.totalPrice * (order.couponDiscount / order.finalPrice)) : ℤ) : ℚ),
                 "completed"⟩] } ∧
    (order.finalPrice = order.totalAmount →
      ((jsRound (item.totalPrice -
          item.totalPrice * (order.couponDiscount / order.finalPrice)) : ℤ) : ℚ) =
        ((jsRound (item.totalPrice -
          item.totalPrice / order.totalAmount * order.couponDiscount) : ℤ) : ℚ)) := by
  have h2 : ¬ (strIncludes returnInvalidStatus item.status = true) := by
    rw [hok]; exact Bool.false_ne_true
  have h4 : ¬ (item.returnRequest.requested = false) := by
    rw [hreq]; simp
  have h5 : ¬ ((item.returnRequest.approved || item.returnRequest.responseSent) = true) := by
    rw [happ, hsent]; simp
  have hmain : (requestReturnAdmin order pid "approve" store wallet).result =
        Except.ok () ∧
      (requestReturnAdmin order pid "approve" store wallet).order.refundedAmount =
        order.refundedAmount + ((jsRound (item.totalPrice -
          item.totalPrice * (order.couponDiscount / order.finalPrice)) : ℤ) : ℚ) ∧
      (requestReturnAdmin order pid "approve" store wallet).wallet =
        some { balance := (getWallet wallet).balance + ((jsRound (item.totalPrice -
                 item.totalPrice * (order.couponDiscount / order.finalPrice)) : ℤ) : ℚ)
               transactions := (getWallet wallet).transactions ++
                 [⟨"credit", ((jsRound (item.totalPrice -
                   item.totalPrice * (order.couponDiscount / order.finalPrice)) : ℤ) : ℚ),
                   "completed"⟩] } := by
    simp only [requestReturnAdmin, hfind, hprod, if_neg hstatus, if_neg h2, if_neg h4,
      if_neg h5, String.reduceEq, true_or, not_true, if_false, reduceIte, saveOrder]
    exact ⟨trivial, trivial, trivial⟩
  refine ⟨hmain.1, hmain.2.1, hmain.2.2, ?_⟩
  intro hfp
  rw [hfp]
  congr 2
  ring

/-- Witness for the amended C5 at the return refund scenario. -/
theorem requestReturnAdmin_refund_amended_witness :
    (requestReturnAdmin returnDemoOrder 1 "approve" refundDemoStore
      (some ⟨0, []⟩)).result = Except.ok () ∧
    (requestReturnAdmin returnDemoOrder 1 "approve" refundDemoStore
      (some ⟨0, []⟩)).order.refundedAmount =
      returnDemoOrder.refundedAmount + ((jsRound ((600 : ℚ) -
        600 * (returnDemoOrder.couponDiscount / returnDemoOrder.finalPrice)) : ℤ) : ℚ) ∧
    (requestReturnAdmin returnDemoOrder 1 "approve" refundDemoStore
      (some ⟨0, []⟩)).wallet =
      some { balance := (getWallet (some ⟨0, []⟩)).balance + ((jsRound ((600 : ℚ) -
               600 * (returnDemoOrder.couponDiscount / returnDemoOrder.finalPrice)) : ℤ) : ℚ)
             transactions := (getWallet (some ⟨0, []⟩)).transactions ++
               [⟨"credit", ((jsRound ((600 : ℚ) -
                 600 * (returnDemoOrder.couponDiscount / returnDemoOrder.finalPrice)) : ℤ) : ℚ),
                 "completed"⟩] } ∧
    (returnDemoOrder.finalPrice = returnDemoOrder.totalAmount →
      ((jsRound ((600 : ℚ) -
          600 * (returnDemoOrder.couponDiscount / returnDemoOrder.finalPrice)) : ℤ) : ℚ) =
        ((jsRound ((600 : ℚ) -
          600 / returnDemoOrder.totalAmount * returnDemoOrder.couponDiscount) : ℤ) : ℚ)) :=
  requestReturnAdmin_refund_amended returnDemoOrder 1 refundDemoStore (some ⟨0, []⟩)
    ⟨1, 1, 600, 0, 600, "Pending", ⟨true, false, false⟩⟩ ⟨1, 600, 3, none⟩
    (by decide) rfl (by decide) rfl rfl rfl rfl

/-- C8: updateOrderStatus accepts exactly the transitions
Processing to Shipped, Processing to Cancelled, Shipped to Delivered
and Shipped to Cancelled, rejecting every other pair of current and
requested status (Delivered and Cancelled orders accept none); and
every accepted transition to Shipped sets deliveryBy to the current
date plus 5 days. -/
theorem updateOrderStatus_transitions (order : Order) (status : String)
    (store : List Product) (wallet : Option Wallet) (now : ℤ) :
    ((updateOrderStatus order status store wallet now).result = Except.ok () ↔
      ((order.orderStatus = "Processing" ∧ status = "Shipped") ∨
       (order.orderStatus = "Processing" ∧ status = "Cancelled") ∨
       (order.orderStatus = "Shipped" ∧ status = "Delivered") ∨
       (order.orderStatus = "Shipped" ∧ status = "Cancelled"))) ∧
    (status = "Shipped" →
      (updateOrderStatus order status store wallet now).result = Except.ok () →
      (updateOrderStatus order status store wallet now).order.deliveryBy =
        some (now + 5)) := by
  have hiff : strIncludes (validTransitions order.orderStatus) status = true ↔
      ((order.orderStatus = "Processing" ∧ status = "Shipped") ∨
       (order.orderStatus = "Processing" ∧ status = "Cancelled") ∨
       (order.orderStatus = "Shipped" ∧ status = "Delivered") ∨
       (order.orderStatus = "Shipped" ∧ status = "Cancelled")) := by
    rw [validTransitions]
    by_cases h1 : order.orderStatus = "Processing"
    · rw [if_pos h1, strIncludes_iff]
      simp [h1, String.reduceEq, or_comm]
    · rw [if_neg h1]
      by_cases h2 : order.orderStatus = "Shipped"
      · rw [if_pos h2, strIncludes_iff]
        simp [h1, h2, String.reduceEq, or_comm]
      · rw [if_neg h2]
        simp [strIncludes, h1, h2]
  by_cases hcond : strIncludes (validTransitions order.orderStatus) status = true
  · constructor
    · have hok : (updateOrderStatus order status store wallet now).result =
          Except.ok () := by
        simp only [updateOrderStatus, if_neg (not_not_intro hcond)]
      rw [hok]
      exact iff_of_true rfl (hiff.mp hcond)
    · intro hship _
      simp only [updateOrderStatus, if_neg (not_not_intro hcond), saveOrder,
        if_pos hship]
  · constructor
    · have herr : (updateOrderStatus order status store wallet now).result =
          Except.error "Invalid status transition." := by
        simp only [updateOrderStatus, if_pos hcond]
      rw [herr]
      exact iff_of_false (by simp) (fun hc => hcond (hiff.mpr hc))
    · intro _ hok
      have herr : (updateOrderStatus order status store wallet now).result =
          Except.error "Invalid status transition." := by
        simp only [updateOrderStatus, if_pos hcond]
      rw [herr] at hok
      exact absurd hok (by simp)

/-- Witness for C8: shipping a Processing order at date 100 succeeds
and sets deliveryBy to 105. -/
theorem updateOrderStatus_transitions_witness :
    (updateOrderStatus statusDemoOrder "Shipped" refundDemoStore none 100).result =
      Except.ok () ∧
    (updateOrderStatus statusDemoOrder "Shipped" refundDemoStore none 100).order.deliveryBy
      = some 105 := by
  obtain ⟨hiff, hdel⟩ :=
    updateOrderStatus_transitions statusDemoOrder "Shipped" refundDemoStore none 100
  have hok := hiff.mpr (Or.inl ⟨rfl, rfl⟩)
  refine ⟨hok, ?_⟩
  rw [hdel rfl hok]
  norm_num


theorem itemsDiscountSum_append (l : List OrderItem) (it : OrderItem) :
    itemsDiscountSum (l ++ [it]) = itemsDiscountSum l + it.discount * it.quantity := by
  induction l with
  | nil => simp [itemsDiscountSum]
  | cons x rest ih =>
    simp only [List.cons_append, itemsDiscountSum, List.append_eq, ih]
    ring

theorem placeOrderLoop_discount :
    ∀ (items : List ReqItem) (store : List Product) (snaps : List OrderItem)
      (sub td : ℚ) (store1 : List Product) (snaps1 : List OrderItem) (sub1 td1 : ℚ),
    placeOrderLoop items store snaps sub td = LoopOutcome.done store1 snaps1 sub1 td1 →
    td1 - itemsDiscountSum snaps1 = td - itemsDiscountSum snaps := by
  intro items
  induction items with
  | nil =>
    intro store snaps sub td store1 snaps1 sub1 td1 h
    rw [placeOrderLoop] at h
    cases h
    rfl
  | cons item rest ih =>
    intro store snaps sub td store1 snaps1 sub1 td1 h
    cases hfp : findProduct store item.product with
    | none =>
      simp only [placeOrderLoop, hfp] at h
      cases h
    | some product =>
      simp only [placeOrderLoop, hfp] at h
      by_cases hs : product.stock < (item.quantity : ℤ)
      · rw [if_pos hs] at h; cases h
      · rw [if_neg hs] at h
        have := ih _ _ _ _ _ _ _ _ h
        rw [this, itemsDiscountSum_append]
        ring


theorem applyCoupon_ok (c : Coupon) (uid : Nat) (sub : ℚ) (now : ℤ) (cd : ℚ) (c1 : Coupon)
    (h : applyCoupon c uid sub now = Except.ok (cd, c1)) :
    atUsageLimit c uid = false ∧
    c1 = { c with usersUsed := incrementUse c.usersUsed uid } := by
  rw [applyCoupon] at h
  split_ifs at h with h1 h2 h3 h4 h5
  all_goals try exact Except.noConfusion h
  all_goals
    refine ⟨Bool.eq_false_iff.mpr h4, ?_⟩
  all_goals
    simp only [Except.ok.injEq, Prod.mk.injEq] at h
  all_goals exact h.2.symm

/-- The master shape of a successful checkout: the item loop finished,
the coupon step succeeded (recording a usage when a code was supplied),
and the created order's monetary fields are determined by the loop and
coupon outputs. -/
theorem placeOrder_ok_shape (userId : Nat) (orderItems : List ReqItem)
    (addressExists : Bool) (pm : String) (couponCode : Option String)
    (store : List Product) (coupon : Option Coupon) (wallet : Option Wallet)
    (now : ℤ) (out : PlaceOutcome) (o : Order)
    (hout : placeOrder userId orderItems addressExists pm couponCode store coupon
      wallet now = out)
    (hok : out.result = Except.ok o) :
    ∃ (store1 : List Product) (snaps : List OrderItem) (subtotal itemsD cd : ℚ),
      placeOrderLoop orderItems store [] 0 0 =
        LoopOutcome.done store1 snaps subtotal itemsD ∧
      (couponCode = none → cd = 0 ∧ out.coupon = coupon) ∧
      (∀ code, couponCode = some code → ∃ c c1, coupon = some c ∧
        applyCoupon c userId subtotal now = Except.ok (cd, c1) ∧
        out.coupon = some c1) ∧
      o.orderItems = snaps ∧
      o.totalAmount = subtotal ∧
      o.couponDiscount = cd ∧
      o.totalDiscount = itemsD + cd ∧
      o.finalPrice = max 0 ((jsRound (subtotal - (itemsD + cd)) : ℤ) : ℚ) := by
  cases hloop : placeOrderLoop orderItems store [] 0 0 with
  | failed msg s1 =>
    simp only [placeOrder, hloop] at hout
    rw [← hout] at hok
    simp at hok
  | done store1 snaps subtotal itemsD =>
    cases couponCode with
    | none =>
      simp only [placeOrder, hloop] at hout
      split at hout
      · rw [← hout] at hok
        simp at hok
      · split at hout
        · split at hout
          · rw [← hout] at hok
            simp at hok
          · rw [← hout] at hok
            simp only [Except.ok.injEq] at hok
            subst hok
            refine ⟨store1, snaps, subtotal, itemsD, 0, rfl, ?_, ?_, rfl, rfl, rfl, rfl, rfl⟩
            · exact fun _ => ⟨rfl, by rw [← hout]⟩
            · exact fun code hc => by cases hc
        · rw [← hout] at hok
          simp only [Except.ok.injEq] at hok
          subst hok
          refine ⟨store1, snaps, subtotal, itemsD, 0, rfl, ?_, ?_, rfl, rfl, rfl, rfl, rfl⟩
          · exact fun _ => ⟨rfl, by rw [← hout]⟩
          · exact fun code hc => by cases hc
    | some code =>
      cases coupon with
      | none =>
        simp only [placeOrder, hloop] at hout
        rw [← hout] at hok
        simp at hok
      | some c =>
        cases happ : applyCoupon c userId subtotal now with
        | error msg =>
          simp only [placeOrder, hloop, happ] at hout
          rw [← hout] at hok
          simp at hok
        | ok pair =>
          obtain ⟨cd, c1⟩ := pair
          simp only [placeOrder, hloop, happ] at hout
          split at hout
          · rw [← hout] at hok
            simp at hok
          · split at hout
            · split at hout
              · rw [← hout] at hok
                simp at hok
              · rw [← hout] at hok
                simp only [Except.ok.injEq] at hok
                subst hok
                refine ⟨store1, snaps, subtotal, itemsD, cd, rfl, ?_, ?_, rfl, rfl, rfl, rfl, rfl⟩
                · exact fun hc => by cases hc
                · exact fun code2 hc => ⟨c, c1, rfl, happ, by rw [← hout]⟩
            · rw [← hout] at hok
              simp only [Except.ok.injEq] at hok
              subst hok
              refine ⟨store1, snaps, subtotal, itemsD, cd, rfl, ?_, ?_, rfl, rfl, rfl, rfl, rfl⟩
              · exact fun hc => by cases hc
              · exact fun code2 hc => ⟨c, c1, rfl, happ, by rw [← hout]⟩


theorem atUsageLimit_eq_true (c : Coupon) (uid : Nat) (e : CouponUse)
    (hfind : findUse c.usersUsed uid = some e) (hge : c.perUserLimit ≤ e.timesUsed) :
    atUsageLimit c uid = true := by
  simp only [atUsageLimit, hfind]
  rw [if_pos hge]

theorem atUsageLimit_eq_false (c : Coupon) (uid : Nat)
    (h : atUsageLimit c uid = false) :
    ∀ e, findUse c.usersUsed uid = some e → e.timesUsed < c.perUserLimit := by
  intro e hfind
  simp only [atUsageLimit, hfind] at h
  by_cases hge : c.perUserLimit ≤ e.timesUsed
  · rw [if_pos hge] at h
    exact absurd h (by simp)
  · exact lt_of_not_le hge

theorem findUse_incrementUse (l : List CouponUse) (uid : Nat) :
    findUse (incrementUse l uid) uid =
      some ⟨uid, (match findUse l uid with
                  | some e => e.timesUsed + 1
                  | none => 1)⟩ := by
  induction l with
  | nil => simp [findUse, incrementUse]
  | cons e rest ih =>
    by_cases h : e.userId = uid
    · rw [incrementUse, if_pos h, findUse, if_pos h]
      rw [findUse, if_pos (show ({ e with timesUsed := e.timesUsed + 1 } :
        CouponUse).userId = uid from h)]
      simp [← h]
    · rw [incrementUse, if_neg h, findUse, if_neg h, findUse, if_neg h, ih]

theorem incrementUse_bound (L : Nat) (l : List CouponUse) (uid : Nat)
    (hall : ∀ e ∈ l, e.timesUsed ≤ L)
    (hstrict : ∀ e, findUse l uid = some e → e.timesUsed < L)
    (hone : 1 ≤ L) :
    ∀ e ∈ incrementUse l uid, e.timesUsed ≤ L := by
  induction l with
  | nil =>
    intro e he
    rw [incrementUse] at he
    rcases List.mem_cons.mp he with rfl | he
    · exact hone
    · simp at he
  | cons x rest ih =>
    by_cases h : x.userId = uid
    · rw [incrementUse, if_pos h]
      intro e he
      rcases List.mem_cons.mp he with he | he
      · have hx := hstrict x (by rw [findUse, if_pos h])
        rw [he]
        show x.timesUsed + 1 ≤ L
        omega
      · exact hall e (List.mem_cons_of_mem x he)
    · rw [incrementUse, if_neg h]
      intro e he
      rcases List.mem_cons.mp he with he | he
      · rw [he]
        exact hall x (List.mem_cons_self x rest)
      · exact ih (fun e2 he2 => hall e2 (List.mem_cons_of_mem x he2))
          (fun e2 he2 => hstrict e2 (by rw [findUse, if_neg h]; exact he2)) e he

/-- Every outcome of placeOrder leaves the coupon collection either
untouched or with exactly one successful applyCoupon usage recorded. -/
theorem placeOrder_coupon_shape (userId : Nat) (orderItems : List ReqItem)
    (addressExists : Bool) (pm : String) (couponCode : Option String)
    (store : List Product) (coupon : Option Coupon) (wallet : Option Wallet)
    (now : ℤ) (out : PlaceOutcome)
    (hout : placeOrder userId orderItems addressExists pm couponCode store coupon
      wallet now = out) :
    out.coupon = coupon ∨
    ∃ (subtotal cd : ℚ) (c c1 : Coupon), coupon = some c ∧
      applyCoupon c userId subtotal now = Except.ok (cd, c1) ∧
      out.coupon = some c1 := by
  cases hloop : placeOrderLoop orderItems store [] 0 0 with
  | failed msg s1 =>
    simp only [placeOrder, hloop] at hout
    left
    rw [← hout]
  | done store1 snaps subtotal itemsD =>
    cases couponCode with
    | none =>
      simp only [placeOrder, hloop] at hout
      left
      split at hout
      · rw [← hout]
      · split at hout
        · split at hout
          · rw [← hout]
          · rw [← hout]
        · rw [← hout]
    | some code =>
      cases coupon with
      | none =>
        simp only [placeOrder, hloop] at hout
        left
        rw [← hout]
      | some c =>
        cases happ : applyCoupon c userId subtotal now with
        | error msg =>
          simp only [placeOrder, hloop, happ] at hout
          left
          rw [← hout]
        | ok pair =>
          obtain ⟨cd, c1⟩ := pair
          simp only [placeOrder, hloop, happ] at hout
          right
          refine ⟨subtotal, cd, c, c1, rfl, happ, ?_⟩
          split at hout
          · rw [← hout]
          · split at hout
            · split at hout
              · rw [← hout]
              · rw [← hout]
            · rw [← hout]


/-- C9: placeOrder preserves the per-user coupon bound. Any resulting
coupon state keeps perUserLimit unchanged and every usage entry at or
below it; a user whose first matching entry has reached perUserLimit
can never check out successfully with the coupon; and a successful
checkout records exactly one more use for the user (a fresh entry with
timesUsed 1 on first use). perUserLimit is at least 1 by the admin
coupon validation. -/
theorem placeOrder_couponUsageBound (userId : Nat) (orderItems : List ReqItem)
    (addressExists : Bool) (pm : String) (code : String) (c : Coupon)
    (store : List Product) (wallet : Option Wallet) (now : ℤ)
    (hlim : 1 ≤ c.perUserLimit)
    (hinv : ∀ e ∈ c.usersUsed, e.timesUsed ≤ c.perUserLimit) :
    (∀ c2, (placeOrder userId orderItems addressExists pm (some code) store (some c)
        wallet now).coupon = some c2 →
      c2.perUserLimit = c.perUserLimit ∧
      ∀ e ∈ c2.usersUsed, e.timesUsed ≤ c.perUserLimit) ∧
    (∀ e, findUse c.usersUsed userId = some e → c.perUserLimit ≤ e.timesUsed →
      ∀ o, (placeOrder userId orderItems addressExists pm (some code) store (some c)
        wallet now).result ≠ Except.ok o) ∧
    (∀ o, (placeOrder userId orderItems addressExists pm (some code) store (some c)
        wallet now).result = Except.ok o →
      ∃ c2, (placeOrder userId orderItems addressExists pm (some code) store (some c)
          wallet now).coupon = some c2 ∧
        findUse c2.usersUsed userId =
          some ⟨userId, (match findUse c.usersUsed userId with
                         | some e => e.timesUsed + 1
                         | none => 1)⟩) := by
  refine ⟨?_, ?_, ?_⟩
  · intro c2 hc2
    rcases placeOrder_coupon_shape userId orderItems addressExists pm (some code) store
        (some c) wallet now _ rfl with hsame | ⟨sub, cd, c0, c1, hc0, happ, hcoup⟩
    · rw [hc2] at hsame
      have hce : c2 = c := by injection hsame
      subst hce
      exact ⟨rfl, hinv⟩
    · rw [hc2] at hcoup
      have hcc : c0 = c := by
        injection hc0.symm
      subst hcc
      have hc1 : c2 = c1 := by
        injection hcoup
      obtain ⟨hfalse, hc1def⟩ := applyCoupon_ok c0 userId sub now cd c1 happ
      rw [hc1, hc1def]
      refine ⟨rfl, ?_⟩
      exact incrementUse_bound c0.perUserLimit c0.usersUsed userId hinv
        (atUsageLimit_eq_false c0 userId hfalse) hlim
  · intro e hfind hge o hok
    obtain ⟨store1, snaps, subtotal, itemsD, cd, hloop, _, hcl, _⟩ :=
      placeOrder_ok_shape userId orderItems addressExists pm (some code) store (some c)
        wallet now _ o rfl hok
    obtain ⟨c0, c1, hc0, happ, _⟩ := hcl code rfl
    have hcc : c0 = c := by injection hc0.symm
    subst hcc
    obtain ⟨hfalse, _⟩ := applyCoupon_ok c0 userId subtotal now cd c1 happ
    have := atUsageLimit_eq_true c0 userId e hfind hge
    rw [this] at hfalse
    exact absurd hfalse (by simp)
  · intro o hok
    obtain ⟨store1, snaps, subtotal, itemsD, cd, hloop, _, hcl, _⟩ :=
      placeOrder_ok_shape userId orderItems addressExists pm (some code) store (some c)
        wallet now _ o rfl hok
    obtain ⟨c0, c1, hc0, happ, hcoup⟩ := hcl code rfl
    have hcc : c0 = c := by injection hc0.symm
    subst hcc
    obtain ⟨_, hc1def⟩ := applyCoupon_ok c0 userId subtotal now cd c1 happ
    refine ⟨c1, hcoup, ?_⟩
    rw [hc1def]
    exact findUse_incrementUse c0.usersUsed userId


/-- Flat 100 coupon used by the checkout scenarios. -/
def demoCoupon : Coupon :=
  { code := "SAVE"
    discountType := "amount"
    discountValue := 100
    minOrderAmount := 0
    maxDiscountAmount := none
    perUserLimit := 1
    usersUsed := []
    startDate := 0
    endDate := 100
    isActive := true }

/-- One product worth 1000 with ample stock. -/
def couponDemoStore : List Product := [⟨1, 1000, 5, none⟩]

theorem placeOrder_couponUsageBound_witness :
    (∀ c2, (placeOrder 7 [⟨1, 1⟩] true "Cash on Delivery" (some "SAVE") couponDemoStore
        (some demoCoupon) none 50).coupon = some c2 →
      c2.perUserLimit = demoCoupon.perUserLimit ∧
      ∀ e ∈ c2.usersUsed, e.timesUsed ≤ demoCoupon.perUserLimit) ∧
    (∀ e, findUse demoCoupon.usersUsed 7 = some e → demoCoupon.perUserLimit ≤ e.timesUsed →
      ∀ o, (placeOrder 7 [⟨1, 1⟩] true "Cash on Delivery" (some "SAVE") couponDemoStore
        (some demoCoupon) none 50).result ≠ Except.ok o) ∧
    (∀ o, (placeOrder 7 [⟨1, 1⟩] true "Cash on Delivery" (some "SAVE") couponDemoStore
        (some demoCoupon) none 50).result = Except.ok o →
      ∃ c2, (placeOrder 7 [⟨1, 1⟩] true "Cash on Delivery" (some "SAVE") couponDemoStore
          (some demoCoupon) none 50).coupon = some c2 ∧
        findUse c2.usersUsed 7 =
          some ⟨7, (match findUse demoCoupon.usersUsed 7 with
                    | some e => e.timesUsed + 1
                    | none => 1)⟩) :=
  placeOrder_couponUsageBound 7 [⟨1, 1⟩] true "Cash on Delivery" "SAVE" demoCoupon
    couponDemoStore none 50 (by decide) (by intro e he; simp [demoCoupon] at he)

/-- C4 counterexample: checking out one product worth 1000 with a flat
100 coupon stores totalAmount 1000, totalDiscount 100 (the coupon is
folded into totalDiscount), couponDiscount 100 and finalPrice 900, so
the claimed invariant finalPrice = max(0, round(totalAmount -
totalDiscount - couponDiscount)) would demand 800 and fails. -/
theorem placeOrder_finalPrice_counterexample :
    ((placeOrder 7 [⟨1, 1⟩] true "Cash on Delivery" (some "SAVE") couponDemoStore
        (some demoCoupon) none 50).result.toOption.map
      (fun o => (o.totalAmount, o.totalDiscount, o.couponDiscount, o.finalPrice))) =
      some (1000, 100, 100, 900) ∧
    ((placeOrder 7 [⟨1, 1⟩] true "Cash on Delivery" (some "SAVE") couponDemoStore
        (some demoCoupon) none 50).result.toOption.map
      (fun o => max 0 ((jsRound (o.totalAmount - o.totalDiscount - o.couponDiscount) : ℤ) : ℚ)))
      = some 800 ∧
    ((900 : ℚ) ≠ 800) := by
  refine ⟨?_, ?_, by norm_num⟩
  · simp [placeOrder, placeOrderLoop, couponDemoStore, demoCoupon, findProduct, saveProduct,
      applyCoupon, atUsageLimit, findUse, incrementUse, getWallet, saveOrder, itemStatuses,
      deriveOrderStatus, allIn, strIncludes, String.reduceEq, jsRound]
    refine ⟨_, rfl, ?_, ?_, ?_, ?_⟩ <;> norm_num
  · simp [placeOrder, placeOrderLoop, couponDemoStore, demoCoupon, findProduct, saveProduct,
      applyCoupon, atUsageLimit, findUse, incrementUse, getWallet, saveOrder, itemStatuses,
      deriveOrderStatus, allIn, strIncludes, String.reduceEq]
    refine ⟨_, rfl, ?_⟩
    norm_num [jsRound]

/-- C4 amended: for every order created by placeOrder, finalPrice =
max(0, round(totalAmount - totalDiscount)) where the stored
totalDiscount already contains the coupon discount: it equals the sum
of per-item offer discounts plus couponDiscount; and per-item
cancellation never changes totalAmount, totalDiscount, couponDiscount
or finalPrice, so the invariant persists. -/
theorem placeOrder_finalPrice_amended :
    (∀ (userId : Nat) (orderItems : List ReqItem) (addressExists : Bool) (pm : String)
        (couponCode : Option String) (store : List Product) (coupon : Option Coupon)
        (wallet : Option Wallet) (now : ℤ) (o : Order),
      (placeOrder userId orderItems addressExists pm couponCode store coupon
        wallet now).result = Except.ok o →
      o.finalPrice = max 0 ((jsRound (o.totalAmount - o.totalDiscount) : ℤ) : ℚ) ∧
      o.totalDiscount = itemsDiscountSum o.orderItems + o.couponDiscount) ∧
    (∀ (ord : Order) (pid : Nat) (store : List Product) (wallet : Option Wallet),
      (cancelOrder ord (some pid) store wallet).result = Except.ok () →
      (cancelOrder ord (some pid) store wallet).order.totalAmount = ord.totalAmount ∧
      (cancelOrder ord (some pid) store wallet).order.totalDiscount = ord.totalDiscount ∧
      (cancelOrder ord (some pid) store wallet).order.couponDiscount = ord.couponDiscount ∧
      (cancelOrder ord (some pid) store wallet).order.finalPrice = ord.finalPrice) := by
  constructor
  · intro userId orderItems addressExists pm couponCode store coupon wallet now o hok
    obtain ⟨store1, snaps, subtotal, itemsD, cd, hloop, _, _, hitems, hta, hcd, htd, hfp⟩ :=
      placeOrder_ok_shape userId orderItems addressExists pm couponCode store coupon
        wallet now _ o rfl hok
    have hsum := placeOrderLoop_discount orderItems store [] 0 0 store1 snaps subtotal
      itemsD hloop
    have hsum2 : itemsD = itemsDiscountSum snaps := by
      simp [itemsDiscountSum] at hsum
      linarith
    constructor
    · rw [hfp, hta, htd]
    · rw [htd, hitems, hcd, hsum2]
  · intro ord pid store wallet hok
    by_cases h1 : ord.orderStatus = "Cancelled"
    · simp only [cancelOrder, if_pos h1] at hok
      exact absurd hok (by simp)
    cases hfi : findItem ord.orderItems pid with
    | none =>
      simp only [cancelOrder, if_neg h1, hfi] at hok
      exact absurd hok (by simp)
    | some item =>
      by_cases h3 : strIncludes cancelInvalidStatus item.status = true
      · simp only [cancelOrder, if_neg h1, hfi, if_pos h3] at hok
        exact absurd hok (by simp)
      · simp only [cancelOrder, if_neg h1, hfi, if_neg h3, saveOrder]
        exact ⟨trivial, trivial, trivial, trivial⟩

/-- Witness for the amended C4 at the coupon checkout scenario. -/
theorem placeOrder_finalPrice_amended_witness :
    ((1000 : ℚ) - 100 = 900) ∧
    (∀ o, (placeOrder 7 [⟨1, 1⟩] true "Cash on Delivery" (some "SAVE") couponDemoStore
        (some demoCoupon) none 50).result = Except.ok o →
      o.finalPrice = max 0 ((jsRound (o.totalAmount - o.totalDiscount) : ℤ) : ℚ) ∧
      o.totalDiscount = itemsDiscountSum o.orderItems + o.couponDiscount) := by
  refine ⟨by norm_num, ?_⟩
  intro o hok
  exact placeOrder_finalPrice_amended.1 7 [⟨1, 1⟩] true "Cash on Delivery" (some "SAVE")
    couponDemoStore (some demoCoupon) none 50 o hok

/-- The stock scenario: product 1 has stock 5, product 2 is out of
stock. -/
def stockDemoStore : List Product := [⟨1, 100, 5, none⟩, ⟨2, 50, 0, none⟩]

/-- C7 (code bug): requesting 2 units of product 1 and 1 unit of the
out-of-stock product 2 aborts with the insufficient-stock error, but
product 1's stock decrement from 5 to 3 has already been persisted: the
loop saves each product before validating the next item and nothing
rolls the earlier writes back. -/
theorem placeOrder_partialStockMutation :
    (placeOrder 7 [⟨1, 2⟩, ⟨2, 1⟩] true "Cash on Delivery" none stockDemoStore
      none none 0).result = Except.error "Insufficient stock" ∧
    findProduct (placeOrder 7 [⟨1, 2⟩, ⟨2, 1⟩] true "Cash on Delivery" none stockDemoStore
      none none 0).store 1 = some ⟨1, 100, 3, none⟩ ∧
    findProduct stockDemoStore 1 = some ⟨1, 100, 5, none⟩ := by
  refine ⟨?_, ?_, by norm_num [stockDemoStore, findProduct]⟩
  · simp [placeOrder, placeOrderLoop, stockDemoStore, findProduct, saveProduct,
      String.reduceEq]
  · simp [placeOrder, placeOrderLoop, stockDemoStore, findProduct, saveProduct,
      String.reduceEq]

theorem findProduct_mem : ∀ {store : List Product} {pid : Nat} {p : Product},
    findProduct store pid = some p → p ∈ store := by
  intro store
  induction store with
  | nil => intro pid p h; simp [findProduct] at h
  | cons q rest ih =>
    intro pid p h
    rw [findProduct] at h
    by_cases hq : q.pid = pid
    · rw [if_pos hq] at h
      cases h
      exact List.mem_cons_self _ _
    · rw [if_neg hq] at h
      exact List.mem_cons_of_mem _ (ih h)

theorem mem_saveProduct {q : Product} : ∀ {store : List Product} {p : Product},
    q ∈ saveProduct store p → q ∈ store ∨ q = p := by
  intro store
  induction store with
  | nil => intro p h; simp [saveProduct] at h
  | cons r rest ih =>
    intro p h
    rw [saveProduct] at h
    by_cases hr : r.pid = p.pid
    · rw [if_pos hr] at h
      rcases List.mem_cons.mp h with rfl | h
      · exact Or.inr rfl
      · exact Or.inl (List.mem_cons_of_mem _ h)
    · rw [if_neg hr] at h
      rcases List.mem_cons.mp h with rfl | h
      · exact Or.inl (List.mem_cons_self _ _)
      · rcases ih h with h | h
        · exact Or.inl (List.mem_cons_of_mem _ h)
        · exact Or.inr h

/-- Invariant of the placeOrder item loop: over a store whose products
have nonnegative prices and nonnegative cached offer discounts, every
item snapshot the loop produces has its discount clamped between 0 and
the unit price, and a nonnegative totalPrice equal to
(price - discount) * quantity. -/
theorem placeOrderLoop_snaps :
    ∀ (items : List ReqItem) (store : List Product) (acc : List OrderItem)
      (sub td : ℚ) (store1 : List Product) (snaps : List OrderItem) (sub1 td1 : ℚ),
      (∀ p ∈ store, 0 ≤ p.price ∧
        ∀ bo, p.bestOffer = some bo → 0 ≤ offerDiscount p.price bo) →
      (∀ it ∈ acc, 0 ≤ it.discount ∧ it.discount ≤ it.price ∧
        it.totalPrice = (it.price - it.discount) * (it.quantity : ℚ) ∧ 0 ≤ it.totalPrice) →
      placeOrderLoop items store acc sub td = LoopOutcome.done store1 snaps sub1 td1 →
      ∀ it ∈ snaps, 0 ≤ it.discount ∧ it.discount ≤ it.price ∧
        it.totalPrice = (it.price - it.discount) * (it.quantity : ℚ) ∧ 0 ≤ it.totalPrice := by
  intro items
  induction items with
  | nil =>
    intro store acc sub td store1 snaps sub1 td1 hstore hacc h
    rw [placeOrderLoop] at h
    cases h
    exact hacc
  | cons item rest ih =>
    intro store acc sub td store1 snaps sub1 td1 hstore hacc h
    cases hfp : findProduct store item.product with
    | none =>
      simp only [placeOrderLoop, hfp] at h
      cases h
    | some product =>
      simp only [placeOrderLoop, hfp] at h
      by_cases hs : product.stock < (item.quantity : ℤ)
      · rw [if_pos hs] at h
        cases h
      · rw [if_neg hs] at h
        obtain ⟨hp0, hpbo⟩ := hstore product (findProduct_mem hfp)
        have hd : 0 ≤ (match product.bestOffer with
              | some bo => min (offerDiscount product.price bo) product.price
              | none => 0) ∧
            (match product.bestOffer with
              | some bo => min (offerDiscount product.price bo) product.price
              | none => 0) ≤ product.price := by
          cases hbo : product.bestOffer with
          | none => exact ⟨le_refl 0, hp0⟩
          | some bo => exact ⟨le_min (hpbo bo hbo) hp0, min_le_right _ _⟩
        refine ih _ _ _ _ _ _ _ _ ?_ ?_ h
        · intro q hq
          rcases mem_saveProduct hq with hq | rfl
          · exact hstore q hq
          · exact ⟨hp0, hpbo⟩
        · intro it hit
          rcases List.mem_append.mp hit with hit | hit
          · exact hacc it hit
          · rw [List.mem_singleton] at hit
            subst hit
            exact ⟨hd.1, hd.2, rfl, mul_nonneg (sub_nonneg.mpr hd.2) (Nat.cast_nonneg _)⟩

/-- C10: over a product collection with nonnegative prices and
nonnegative cached best-offer discounts, every order item snapshotted
by a successful placeOrder has its per-unit discount clamped to the
unit price: 0 <= discount <= price, and totalPrice =
(price - discount) * quantity is nonnegative, even when the cached
best offer is an amount discount exceeding the unit price. -/
theorem placeOrder_itemDiscountClamped
    (userId : Nat) (orderItems : List ReqItem) (addressExists : Bool) (pm : String)
    (couponCode : Option String) (store : List Product) (coupon : Option Coupon)
    (wallet : Option Wallet) (now : ℤ) (o : Order)
    (hstore : ∀ p ∈ store, 0 ≤ p.price ∧
      ∀ bo, p.bestOffer = some bo → 0 ≤ offerDiscount p.price bo)
    (hok : (placeOrder userId orderItems addressExists pm couponCode store coupon
      wallet now).result = Except.ok o) :
    ∀ it ∈ o.orderItems, 0 ≤ it.discount ∧ it.discount ≤ it.price ∧
      it.totalPrice = (it.price - it.discount) * (it.quantity : ℚ) ∧ 0 ≤ it.totalPrice := by
  obtain ⟨store1, snaps, subtotal, itemsD, cd, hloop, _, _, hitems, _⟩ :=
    placeOrder_ok_shape userId orderItems addressExists pm couponCode store coupon
      wallet now _ o rfl hok
  rw [hitems]
  exact placeOrderLoop_snaps orderItems store [] 0 0 store1 snaps subtotal itemsD
    hstore (by simp) hloop

/-- A one-product store whose cached best offer is a flat 150 amount
discount on a product priced 100: the offer exceeds the unit price. -/
def clampDemoStore : List Product := [⟨1, 100, 5, some ⟨9, "amount", 150, true⟩⟩]

theorem placeOrder_itemDiscountClamped_witness :
    ∃ o, (placeOrder 7 [⟨1, 2⟩] true "Cash on Delivery" none clampDemoStore
        none none 50).result = Except.ok o ∧
      o.orderItems = [⟨1, 2, 100, 100, 0, "Pending", ⟨false, false, false⟩⟩] ∧
      ∀ it ∈ o.orderItems, 0 ≤ it.discount ∧ it.discount ≤ it.price ∧
        it.totalPrice = (it.price - it.discount) * (it.quantity : ℚ) ∧ 0 ≤ it.totalPrice := by
  have hok : (placeOrder 7 [⟨1, 2⟩] true "Cash on Delivery" none clampDemoStore
      none none 50).result = Except.ok
      { user := 7
        orderItems := [⟨1, 2, 100, 100, 0, "Pending", ⟨false, false, false⟩⟩]
        totalAmount := 200
        totalDiscount := 200
        finalPrice := 0
        couponCode := none
        couponDiscount := 0
        paymentMethod := "Cash on Delivery"
        paymentStatus := "Pending"
        orderStatus := "Processing"
        deliveryBy := none
        refundedAmount := 0 } := by
    simp [placeOrder, placeOrderLoop, clampDemoStore, findProduct, saveProduct, offerDiscount,
      saveOrder, itemStatuses, deriveOrderStatus, allIn, strIncludes, String.reduceEq, jsRound]
    norm_num
  refine ⟨_, hok, rfl, ?_⟩
  exact placeOrder_itemDiscountClamped 7 [⟨1, 2⟩] true "Cash on Delivery" none
    clampDemoStore none none 50 _
    (by
      intro p hp
      rw [clampDemoStore, List.mem_singleton] at hp
      subst hp
      refine ⟨by norm_num, ?_⟩
      intro bo hbo
      cases hbo
      simp [offerDiscount, String.reduceEq]) hok

end GameStash
